import Mathlib

/-!
Verification development for the authentication and token-lifecycle subsystem
of the negare-api repository (NestJS + Redis + JWT).

The TypeScript services are shallowly embedded as pure Lean functions over an
explicit store state.  Redis is modelled as a collection of key/value maps whose
entries carry an absolute expiry instant (`Expiring`); every read goes through a
liveness check against the current time `now` (epoch seconds), mirroring
store-level TTL expiry.  Random values produced inside the services
(six-digit codes, UUID jtis, signed ticket strings) are taken as explicit
parameters of the embedded functions.  `sha256Hex`-based key derivation and
code hashing are modelled by an explicit hash-function parameter / by the
preimage string itself, which is faithful to the collision-free, deterministic
use the code makes of them.

Sources embedded:
  * apps/api/src/core/auth/otp/otp.service.ts            (OtpService)
  * apps/api/src/core/auth/otp/otp-rate-limit.service.ts (OtpRateLimitService)
  * RefreshService, TokenService, RefreshRateLimitService, AuthController,
    auth.constants.ts (allow-list record and keys)
  * SessionService is not among the sources; its narrow contract
    (link/unlink/touch) is modelled from the spec where needed.
-/

namespace Negare

/-! ## Store infrastructure -/

/-- A Redis keyspace: partial map from keys to values. -/
def SMap (α : Type) : Type := String → Option α

/-- The empty keyspace. -/
def SMap.empty {α : Type} : SMap α := fun _ => none

/-- `SET key v`. -/
def SMap.set {α : Type} (m : SMap α) (k : String) (v : α) : SMap α :=
  fun x => if x = k then some v else m x

/-- `DEL key`. -/
def SMap.del {α : Type} (m : SMap α) (k : String) : SMap α :=
  fun x => if x = k then none else m x

/-- A stored value together with its absolute expiry instant (epoch seconds).
Redis `SET k v EX t` at time `s` is modelled as storing `⟨v, s + t⟩`; the key is
live at `now` iff `now < expireAt`. -/
structure Expiring (α : Type) where
  val : α
  expireAt : Nat
  deriving Repr, DecidableEq

/-- Read a key honouring TTL expiry: a dead entry behaves as absent. -/
def getLive {α : Type} (m : SMap (Expiring α)) (k : String) (now : Nat) : Option α :=
  match m k with
  | some e => if now < e.expireAt then some e.val else none
  | none => none

/-! ### Executable string helpers (models of the JS string operations used) -/

/-- JS `String.prototype.trim`. -/
def strTrim (s : String) : String :=
  String.mk (((s.toList.dropWhile Char.isWhitespace).reverse.dropWhile
    Char.isWhitespace).reverse)

/-- JS `String.prototype.toLowerCase` (ASCII, which covers the inputs involved). -/
def strToLower (s : String) : String :=
  String.mk (s.toList.map Char.toLower)

/-- JS `replace(/\s+/g, '')`. -/
def stripWs (s : String) : String :=
  String.mk (s.toList.filter (fun c => !c.isWhitespace))

def startsWithL : List Char → List Char → Bool
  | _, [] => true
  | [], _ :: _ => false
  | t :: ts, p :: ps => t == p && startsWithL ts ps

def containsL : List Char → List Char → Bool
  | [], pat => startsWithL [] pat
  | t :: ts, pat => startsWithL (t :: ts) pat || containsL ts pat

/-- JS `String.prototype.includes`. -/
def containsSub (s t : String) : Bool :=
  containsL s.toList t.toList

def splitOnChar (sep : Char) : List Char → List (List Char)
  | [] => [[]]
  | c :: rest =>
    let r := splitOnChar sep rest
    if c == sep then [] :: r
    else
      match r with
      | h :: t => (c :: h) :: t
      | [] => [[c]]

/-- JS `String.prototype.split` with a single-character separator. -/
def strSplitOn (s : String) (sep : Char) : List String :=
  (splitOnChar sep s.toList).map String.mk

/-- The typed exceptions raised by the services (NestJS exception classes),
carrying the human message. `collaborator` stands for failures surfaced by an
external collaborator (the users service), whose exact type is out of scope. -/
inductive ApiErr where
  | tooMany (msg : String)
  | forbidden (msg : String)
  | badRequest (msg : String)
  | unauthorized (msg : String)
  | collaborator (msg : String)
  deriving Repr, DecidableEq

/-! ## OTP subsystem: data model -/

inductive OtpChannel where
  | sms
  | email
  deriving Repr, DecidableEq

inductive OtpPurpose where
  | login
  | signup
  | reset
  deriving Repr, DecidableEq

def channelStr : OtpChannel → String
  | .sms => "sms"
  | .email => "email"

def purposeStr : OtpPurpose → String
  | .login => "login"
  | .signup => "signup"
  | .reset => "reset"

/-- The OTP Record: the Redis hash written by `OtpService.issueNewCode`.
All numeric fields are stored as strings in Redis; they are modelled as `Nat`. -/
structure OtpRecord where
  codeHash : String
  attempts : Nat
  maxAttempts : Nat
  exp : Nat
  resendAt : Nat
  sendCount : Nat
  ip : String
  ch : OtpChannel
  pu : OtpPurpose
  deriving Repr, DecidableEq

/-- The environment-driven configuration read by `OtpService` and
`OtpRateLimitService`; `none` models an unset environment variable, resolved
to the code's defaults at each read site (the two services read the same keys
with different fallback defaults — modelled faithfully below). -/
structure OtpCfg where
  otpVerifyWindow : Option Nat := none
  otpRequestWindow : Option Nat := none
  otpVerifyMax : Option Nat := none
  otpRequestMax : Option Nat := none
  otpRequestIpMax : Option Nat := none
  otpVerifyIpMax : Option Nat := none
  otpBlockWindow : Option Nat := none
  ticketTtlSec : Nat := 600
  deriving Repr

/-- `this.OTP_TTL = Number(config.get('OTP_VERIFY_WINDOW') ?? 300)`. -/
def OtpCfg.otpTtl (c : OtpCfg) : Nat := c.otpVerifyWindow.getD 300

/-- `this.RESEND_COOLDOWN = Number(config.get('OTP_REQUEST_WINDOW') ?? 120)`. -/
def OtpCfg.resendCooldown (c : OtpCfg) : Nat := c.otpRequestWindow.getD 120

/-- `this.OTP_MAX_ATTEMPTS = Number(config.get('OTP_VERIFY_MAX') ?? 5)`. -/
def OtpCfg.otpMaxAttempts (c : OtpCfg) : Nat := c.otpVerifyMax.getD 5

/-- `blockWindowSeconds(): Number(config.get('OTP_BLOCK_WINDOW') ?? 900)`. -/
def OtpCfg.blockWindowSeconds (c : OtpCfg) : Nat := c.otpBlockWindow.getD 900

/-- The OTP side of the shared store: active-code hashes, cooldown markers,
block flags, ticket hashes, and the fixed-window rate-limit counters. -/
structure OtpState where
  active : SMap (Expiring OtpRecord)
  cooldown : SMap (Expiring String)
  blockK : SMap (Expiring String)
  ticket : SMap (Expiring String)
  rl : SMap (Expiring Nat)

def OtpState.empty : OtpState :=
  { active := SMap.empty, cooldown := SMap.empty, blockK := SMap.empty,
    ticket := SMap.empty, rl := SMap.empty }

/-- The `OtpService` dependencies that are pure parameters of the embedding:
configuration and the one-way hash `sha256Hex` used on codes and tickets
(injective on the inputs involved; theorems state the mismatch hypothesis
directly on hash values, exactly as the code compares them). -/
structure OtpEnv where
  cfg : OtpCfg
  hashFn : String → String

/-! ## OTP subsystem: keys and helpers -/

/-- `keyBase`: `otp:` + sha256(purpose|channel|identifier) truncated to 40 hex
chars.  The truncated hash is modelled by the preimage string itself
(deterministic and collision-free for the cardinality involved, which is all
the code relies on). -/
def keyBase (p : OtpPurpose) (c : OtpChannel) (identifier : String) : String :=
  "otp:" ++ purposeStr p ++ "|" ++ channelStr c ++ "|" ++ identifier

def keyActive (p : OtpPurpose) (c : OtpChannel) (identifier : String) : String :=
  keyBase p c identifier

def keyCooldown (p : OtpPurpose) (c : OtpChannel) (identifier : String) : String :=
  keyBase p c identifier ++ ":cd"

def keyBlock (p : OtpPurpose) (c : OtpChannel) (identifier : String) : String :=
  keyBase p c identifier ++ ":blk"

def keyTicket (jti : String) : String := "otp:ticket:" ++ jti

/-- `OtpRateLimitService.key`: `otp:rl:<scope>:<subject>:<hash40(value)>[:channel][:purpose]`.
The 40-char hash is again modelled by the value itself. -/
def rlKey (scope subject value : String) (c : OtpChannel) (p : OtpPurpose) : String :=
  "otp:rl:" ++ scope ++ ":" ++ subject ++ ":" ++ value
    ++ ":" ++ channelStr c ++ ":" ++ purposeStr p

/-- `normalizeIdentifier`: trim; strip all whitespace for sms; lowercase for email. -/
def normalizeIdentifier (c : OtpChannel) (raw : String) : String :=
  let v := strTrim raw
  match c with
  | .sms => stripWs v
  | .email => strToLower v

/-- `maskIp`: `a.b.c.d` becomes `a.b.c.0/24`; anything else is kept as is;
absent stays absent. -/
def maskIp (ip : Option String) : Option String :=
  match ip with
  | none => none
  | some s =>
    match strSplitOn s '.' with
    | [a, b, c, _] => some (a ++ "." ++ b ++ "." ++ c ++ ".0/24")
    | _ => some s

/-! ## OtpRateLimitService -/

/-- `bump`: `INCR key`; on the first hit of a window, `EXPIRE key windowSec`.
Returns the post-increment count.  An expired counter behaves as absent, so
`INCR` recreates it at 1 and the window restarts.  (The rate limiter touches
only its own counter keyspace, so it is embedded as a transformer of that
keyspace alone.) -/
def bump (m : SMap (Expiring Nat)) (key : String) (windowSec now : Nat) :
    Nat × SMap (Expiring Nat) :=
  match m key with
  | some e =>
    if now < e.expireAt then
      (e.val + 1, m.set key ⟨e.val + 1, e.expireAt⟩)
    else
      (1, m.set key ⟨1, now + windowSec⟩)
  | none => (1, m.set key ⟨1, now + windowSec⟩)

def reqMaxIdMsg : String :=
  "تعداد درخواست‌های ارسال کد بیش از حد مجاز است. لطفاً بعداً دوباره تلاش کنید."

def reqMaxIpMsg : String :=
  "تعداد درخواست‌های این IP بیش از حد مجاز است. لطفاً بعداً دوباره تلاش کنید."

def verMaxIdMsg : String :=
  "تعداد تلاش‌های تأیید کد بیش از حد مجاز است. لطفاً بعداً دوباره تلاش کنید."

def verMaxIpMsg : String :=
  "تعداد تلاش‌های تأیید کد از این IP بیش از حد مجاز است. لطفاً بعداً دوباره تلاش کنید."

/-- `consumeRequestBucket`: per-identifier bucket (window `OTP_REQUEST_WINDOW ?? 60`,
max `OTP_REQUEST_MAX ?? 3`), then optional per-ip bucket (max `OTP_REQUEST_IP_MAX ?? 10`).
The counter increment persists even when the call then fails with 429. -/
def consumeRequestBucket (cfg : OtpCfg) (m : SMap (Expiring Nat)) (identifier : String)
    (ip : Option String) (c : OtpChannel) (p : OtpPurpose) (now : Nat) :
    Except ApiErr Unit × SMap (Expiring Nat) :=
  let win := cfg.otpRequestWindow.getD 60
  let maxId := cfg.otpRequestMax.getD 3
  let maxIp := cfg.otpRequestIpMax.getD 10
  let r1 := bump m (rlKey "req" "id" identifier c p) win now
  if r1.1 > maxId then
    (.error (.tooMany reqMaxIdMsg), r1.2)
  else
    match ip with
    | some ipv =>
      let r2 := bump r1.2 (rlKey "req" "ip" ipv c p) win now
      if r2.1 > maxIp then (.error (.tooMany reqMaxIpMsg), r2.2)
      else (.ok (), r2.2)
    | none => (.ok (), r1.2)

/-- `consumeVerifyBucket`: window `OTP_VERIFY_WINDOW ?? 120`,
max `OTP_VERIFY_MAX ?? 5` per identifier, `OTP_VERIFY_IP_MAX ?? 30` per ip. -/
def consumeVerifyBucket (cfg : OtpCfg) (m : SMap (Expiring Nat)) (identifier : String)
    (ip : Option String) (c : OtpChannel) (p : OtpPurpose) (now : Nat) :
    Except ApiErr Unit × SMap (Expiring Nat) :=
  let win := cfg.otpVerifyWindow.getD 120
  let maxId := cfg.otpVerifyMax.getD 5
  let maxIp := cfg.otpVerifyIpMax.getD 30
  let r1 := bump m (rlKey "ver" "id" identifier c p) win now
  if r1.1 > maxId then
    (.error (.tooMany verMaxIdMsg), r1.2)
  else
    match ip with
    | some ipv =>
      let r2 := bump r1.2 (rlKey "ver" "ip" ipv c p) win now
      if r2.1 > maxIp then (.error (.tooMany verMaxIpMsg), r2.2)
      else (.ok (), r2.2)
    | none => (.ok (), r1.2)

/-! ## OtpService -/

def blockedMsg : String := "Too many attempts. Try again later."

def invalidCodeMsg : String := "Invalid or expired code."

structure OtpReqData where
  alreadyActive : Bool
  expiresIn : Nat
  resendAvailableIn : Nat
  deriving Repr, DecidableEq

structure OtpVerifyData where
  ticket : String
  next : String
  expiresIn : Nat
  deriving Repr, DecidableEq

/-- `issueNewCode`: one MULTI writing the fresh OTP hash (attempts 0,
`exp = now + OTP_TTL`, `resendAt = now + RESEND_COOLDOWN`, sendCount 1),
`EXPIRE` on the hash, and the cooldown marker; then dispatch via SMS/email
(dispatch success is assumed; its failure mode is outside the claims). -/
def issueNewCode (env : OtpEnv) (st : OtpState) (c : OtpChannel) (identifier : String)
    (p : OtpPurpose) (ip : Option String) (newCode : String) (now : Nat) : OtpState :=
  let r : OtpRecord :=
    { codeHash := env.hashFn newCode
      attempts := 0
      maxAttempts := env.cfg.otpMaxAttempts
      exp := now + env.cfg.otpTtl
      resendAt := now + env.cfg.resendCooldown
      sendCount := 1
      ip := (maskIp ip).getD ""
      ch := c
      pu := p }
  { st with
      active := st.active.set (keyActive p c identifier) ⟨r, now + env.cfg.otpTtl⟩
      cooldown := st.cooldown.set (keyCooldown p c identifier) ⟨"1", now + env.cfg.resendCooldown⟩ }

/-- `OtpService.requestOtp`. The freshly generated six-digit code is the
parameter `newCode`. -/
def requestOtp (env : OtpEnv) (st : OtpState) (c : OtpChannel) (rawIdentifier : String)
    (p : OtpPurpose) (ip : Option String) (newCode : String) (now : Nat) :
    Except ApiErr OtpReqData × OtpState :=
  let identifier := normalizeIdentifier c rawIdentifier
  match consumeRequestBucket env.cfg st.rl identifier ip c p now with
  | (.error e, m1) => (.error e, { st with rl := m1 })
  | (.ok _, m1) =>
    let st1 := { st with rl := m1 }
    if (getLive st1.blockK (keyBlock p c identifier) now).isSome then
      (.error (.forbidden blockedMsg), st1)
    else
      match getLive st1.active (keyActive p c identifier) now with
      | some r =>
        let resendRemaining := r.resendAt - now
        if resendRemaining > 0 then
          (.ok ⟨true, r.exp - now, resendRemaining⟩, st1)
        else
          (.ok ⟨false, env.cfg.otpTtl, env.cfg.resendCooldown⟩,
            issueNewCode env st1 c identifier p ip newCode now)
      | none =>
        (.ok ⟨false, env.cfg.otpTtl, env.cfg.resendCooldown⟩,
          issueNewCode env st1 c identifier p ip newCode now)

/-- `OtpService.verifyOtp`.  `jti` and `ticketTok` stand for the freshly minted
ticket id and the signed ticket string.  The attempt counter is incremented by
an atomic `HINCRBY` that leaves the key's TTL untouched. -/
def verifyOtp (env : OtpEnv) (st : OtpState) (c : OtpChannel) (rawIdentifier code : String)
    (p : OtpPurpose) (ip : Option String) (jti ticketTok : String) (now : Nat) :
    Except ApiErr OtpVerifyData × OtpState :=
  let identifier := normalizeIdentifier c rawIdentifier
  match consumeVerifyBucket env.cfg st.rl identifier ip c p now with
  | (.error e, m1) => (.error e, { st with rl := m1 })
  | (.ok _, m1) =>
    let st1 := { st with rl := m1 }
    let activeKey := keyActive p c identifier
    let blockKey := keyBlock p c identifier
    if (getLive st1.blockK blockKey now).isSome then
      (.error (.forbidden blockedMsg), st1)
    else
      match st1.active activeKey with
      | none => (.error (.badRequest invalidCodeMsg), st1)
      | some e =>
        if now < e.expireAt then
          let r := e.val
          if r.exp ≤ now then
            (.error (.badRequest invalidCodeMsg),
              { st1 with active := st1.active.del activeKey })
          else
            let attempts := r.attempts + 1
            let st2 := { st1 with
              active := st1.active.set activeKey ⟨{ r with attempts := attempts }, e.expireAt⟩ }
            if attempts > r.maxAttempts then
              (.error (.forbidden blockedMsg),
                { st2 with
                    active := st2.active.del activeKey
                    blockK := st2.blockK.set blockKey ⟨"1", now + env.cfg.blockWindowSeconds⟩ })
            else if env.hashFn code ≠ r.codeHash then
              (.error (.badRequest invalidCodeMsg), st2)
            else
              (.ok ⟨ticketTok,
                    (if p = .reset then "reset-password" else "set-password"),
                    env.cfg.ticketTtlSec⟩,
                { st2 with
                    active := st2.active.del activeKey
                    cooldown := st2.cooldown.del (keyCooldown p c identifier)
                    ticket := st2.ticket.set (keyTicket jti)
                      ⟨env.hashFn ticketTok, now + env.cfg.ticketTtlSec⟩ })
        else
          -- key TTL has lapsed: HGETALL returns an empty hash
          (.error (.badRequest invalidCodeMsg), st1)

/-- `OtpService.resendOtp`: consumes the request bucket, then — with no block
check of its own — either delegates to `requestOtp` (no active record), replays
the cooldown response, or issues a fresh code. -/
def resendOtp (env : OtpEnv) (st : OtpState) (c : OtpChannel) (rawIdentifier : String)
    (p : OtpPurpose) (ip : Option String) (newCode : String) (now : Nat) :
    Except ApiErr OtpReqData × OtpState :=
  let identifier := normalizeIdentifier c rawIdentifier
  match consumeRequestBucket env.cfg st.rl identifier ip c p now with
  | (.error e, m1) => (.error e, { st with rl := m1 })
  | (.ok _, m1) =>
    let st1 := { st with rl := m1 }
    match getLive st1.active (keyActive p c identifier) now with
    | none =>
      -- no active code: behave like a fresh request (which consumes the bucket again)
      requestOtp env st1 c identifier p ip newCode now
    | some r =>
      let resendRemaining := r.resendAt - now
      if resendRemaining > 0 then
        (.ok ⟨true, r.exp - now, resendRemaining⟩, st1)
      else
        (.ok ⟨false, env.cfg.otpTtl, env.cfg.resendCooldown⟩,
          issueNewCode env st1 c identifier p ip newCode now)

/-! ## Token codec (TokenService) -/

/-- The claim set of a refresh token (`{sub, sid, jti, typ:'refresh'}` plus the
`exp` registered claim, epoch seconds).  In TS, absent string claims are the
empty string's falsy cousins; emptiness models absence where truthiness is
checked. -/
structure RefreshTokenPayload where
  sub : String
  sid : String
  jti : String
  typ : String
  exp : Nat
  deriving Repr, DecidableEq

/-- The claim set of an access token. -/
structure AccessTokenPayload where
  sub : String
  roles : List String
  typ : String
  exp : Nat
  deriving Repr, DecidableEq

/-- A refresh-token string, classified by what `jsonwebtoken.verify` /
`jsonwebtoken.decode` can make of it:
 * `signed p` — HMAC signature valid under the refresh secret, claims `p`;
 * `badSig raw` — signature verification fails, but `decode` may still
   base64-decode the (unverified) claims `raw`;
 * `emptyTok` — the empty / missing token string (falsy in TS). -/
inductive Token where
  | signed (p : RefreshTokenPayload)
  | badSig (raw : Option RefreshTokenPayload)
  | emptyTok
  deriving Repr, DecidableEq

/-- `jsonwebtoken.verify` clockTolerance used by `safeVerify`. -/
def clockTolerance : Nat := 5

/-- `TokenService.safeVerify` for the refresh secret: signature, expiry (with
clock tolerance, unless ignored) and the early `typ` tag check.  Every failure
inside is caught and rethrown as `Unauthorized('Invalid token.')`. -/
def safeVerifyRefresh (tok : Token) (ignoreExpiration : Bool) (now : Nat) :
    Except ApiErr RefreshTokenPayload :=
  match tok with
  | .emptyTok => .error (.unauthorized "Invalid token.")
  | .badSig _ => .error (.unauthorized "Invalid token.")
  | .signed p =>
    if ignoreExpiration = false ∧ p.exp + clockTolerance ≤ now then
      .error (.unauthorized "Invalid token.")
    else if p.typ ≠ "" ∧ p.typ ≠ "refresh" then
      .error (.unauthorized "Invalid token.")
    else .ok p

/-- What a stored allow-list value (a Redis string) can be, as far as
`parseAllowRecord` distinguishes:
 * `recordJson u s` — `JSON.stringify` of a `RefreshAllowRecord {userId, sessionId}`;
 * `legacyOne` — the raw string `'1'` (the pre-JSON legacy format);
 * `otherRaw s` — any other string (other valid JSON without a truthy
   `userId`, or unparseable text). -/
inductive AllowStored where
  | recordJson (userId : String) (sessionId : Option String)
  | legacyOne
  | otherRaw (s : String)
  deriving Repr, DecidableEq

structure RefreshAllowRecord where
  userId : String
  sessionId : Option String
  deriving Repr, DecidableEq

/-- The refresh side of the shared store, including the session registry.
`links` and `lastUsed` belong to `SessionService`, which is not among the
sources; they are modelled from the spec (see the operations below). -/
structure RefreshState where
  /-- allow-list `auth:refresh:allow:<jti>`, keyed here by the jti itself -/
  allow : SMap (Expiring AllowStored)
  /-- blacklist `auth:rbl:<jti>` (value '1') -/
  rbl : SMap (Expiring String)
  /-- refresh-endpoint fixed-window counters `auth:refresh:rl:<hash>` -/
  refreshRl : SMap (Expiring Nat)
  /-- Modelled from the spec: the session↔jti association set maintained by
  `SessionService.linkRefreshJti`/`unlinkRefreshJti` ((userId, sessionId, jti)). -/
  links : List (String × String × String)
  /-- Modelled from the spec: `lastUsedAt` per `userId ++ ":" ++ sessionId`,
  written only by `SessionService.touch`. -/
  lastUsed : SMap Nat

/-- `RefreshService.parseAllowRecord`.  Note the legacy branch: `'1'` is valid
JSON (the number 1), so `JSON.parse('1')` succeeds, `rec?.userId` is undefined
(falsy) and the function returns null — the catch-block fallback that would
accept `'1'` is unreachable for `'1'` itself. -/
def parseAllowRecord (stored : AllowStored) (expectedUserId : String)
    (_payloadSid : Option String) : Option RefreshAllowRecord :=
  match stored with
  | .recordJson u s =>
    if u = "" then none
    else if u ≠ expectedUserId then none
    else some ⟨u, s⟩
  | .legacyOne => none
  | .otherRaw _ => none

/-- `TokenService.isRefreshBlacklisted`: `GET auth:rbl:<jti>` equals `'1'`. -/
def isRefreshBlacklisted (st : RefreshState) (jti : String) (now : Nat) : Bool :=
  getLive st.rbl jti now == some "1"

/-- `TokenService.verifyRefresh`: `safeVerify` + shape check
(`typ='refresh'`, truthy `jti` and `sid`) + blacklist check unless skipped. -/
def tokenVerifyRefresh (st : RefreshState) (tok : Token)
    (ignoreExpiration skipBlacklist : Bool) (now : Nat) :
    Except ApiErr RefreshTokenPayload :=
  match safeVerifyRefresh tok ignoreExpiration now with
  | .error e => .error e
  | .ok p =>
    if p.typ ≠ "refresh" ∨ p.jti = "" ∨ p.sid = "" then
      .error (.unauthorized "Malformed refresh token.")
    else if skipBlacklist = false ∧ isRefreshBlacklisted st p.jti now = true then
      .error (.unauthorized "Refresh token is revoked.")
    else .ok p

/-- `jsonwebtoken.decode`: yields the (unverified) claims when the token
base64-decodes, independent of signature validity. -/
def decodeUnsafe (tok : Token) : Option RefreshTokenPayload :=
  match tok with
  | .signed p => some p
  | .badSig raw => raw
  | .emptyTok => none

/-- `TokenService.peekRefresh`: non-throwing peek.  On any `safeVerify` failure
it falls back to the raw `decode` of the token — returning unverified claims
without the typ/jti/sid shape checks.  `allowBlacklisted` defaults to true. -/
def peekRefresh (st : RefreshState) (tok : Token)
    (ignoreExpiration allowBlacklisted : Bool) (now : Nat) :
    Option RefreshTokenPayload :=
  match safeVerifyRefresh tok ignoreExpiration now with
  | .ok p =>
    if p.typ ≠ "refresh" ∨ p.jti = "" ∨ p.sid = "" then none
    else if allowBlacklisted = false ∧ isRefreshBlacklisted st p.jti now = true then none
    else some p
  | .error _ => decodeUnsafe tok

/-! ## Session registry (modelled from the spec) -/

/-- Modelled from the spec: `SessionService.linkRefreshJti(userId, sessionId, jti)`
adds the association to the session↔jti set. -/
def linkRefreshJti (st : RefreshState) (u s j : String) : RefreshState :=
  { st with links := (u, s, j) :: st.links }

/-- Modelled from the spec: `SessionService.unlinkRefreshJti` removes the
association from the set. -/
def unlinkRefreshJti (st : RefreshState) (u s j : String) : RefreshState :=
  { st with links := st.links.filter (fun t => t ≠ (u, s, j)) }

/-- Modelled from the spec: `SessionService.touch(userId, sessionId)` refreshes
`lastUsedAt` (and the record's TTL). -/
def sessionTouch (st : RefreshState) (u s : String) (now : Nat) : RefreshState :=
  { st with lastUsed := st.lastUsed.set (u ++ ":" ++ s) now }

/-! ## RefreshService -/

/-- The `RefreshService`/`TokenService` dependencies that are pure parameters:
the parsed token TTLs and the users collaborator
(`UsersService.ensureActiveWithRoles`, returning the active user's role names,
or nothing when the lookup fails). -/
structure RefreshEnv where
  refreshTtlSeconds : Nat
  accessTtlSeconds : Nat
  users : String → Option (List String)

structure TokenPair where
  accessToken : AccessTokenPayload
  refreshToken : Token
  deriving Repr, DecidableEq

/-- Truthiness of a nullable string (`null`/`undefined` and `''` are falsy). -/
def truthyOpt : Option String → Bool
  | some s => s != ""
  | none => false

/-- `RefreshService.verifyRefreshToken` (private): the `!token` guard, then
`tokens.verifyRefresh`, any failure rethrown as
`Unauthorized('Refresh token verification failed.')`. -/
def verifyRefreshTokenSvc (st : RefreshState) (tok : Token)
    (ignoreExpiration skipBlacklist : Bool) (now : Nat) :
    Except ApiErr RefreshTokenPayload :=
  match tok with
  | .emptyTok => .error (.unauthorized "Refresh token must be provided.")
  | _ =>
    match tokenVerifyRefresh st tok ignoreExpiration skipBlacklist now with
    | .ok p => .ok p
    | .error _ => .error (.unauthorized "Refresh token verification failed.")

/-- `RefreshService.atomicGetDel`: GETDEL — return the live value (if any) and
remove the key, as one atomic step. -/
def atomicGetDel (m : SMap (Expiring AllowStored)) (k : String) (now : Nat) :
    Option AllowStored × SMap (Expiring AllowStored) :=
  match m k with
  | some e => if now < e.expireAt then (some e.val, m.del k) else (none, m.del k)
  | none => (none, m)

/-- `RefreshService.safeBlacklist` / `TokenService.blacklistRefreshJti`:
`SET auth:rbl:<jti> '1' EX ttl`, best-effort.  A zero TTL falls back to the
(equal) configured refresh TTL, and `SET ... EX 0` is rejected by Redis, in
which case the `.catch` swallows the failure and the store is unchanged. -/
def safeBlacklist (env : RefreshEnv) (st : RefreshState) (jti : String) (now : Nat) :
    RefreshState :=
  if jti = "" then st
  else if env.refreshTtlSeconds = 0 then st
  else { st with rbl := st.rbl.set jti ⟨"1", now + env.refreshTtlSeconds⟩ }

/-- `RefreshService.buildPair`: sign the access token (deduplicated roles) and
the refresh token (`sid = sessionId ?? jti`, fresh `jti`), write the allow-list
entry `{userId, sessionId: sessionId ?? null}` with TTL `max(refreshTtl, 60)`,
and — when a truthy sessionId was supplied — link the jti to that session. -/
def buildPair (env : RefreshEnv) (st : RefreshState) (userId : String)
    (roles : List String) (sessionId : Option String) (jti : String) (now : Nat) :
    TokenPair × RefreshState :=
  let roleNames := roles.eraseDups
  let accessToken : AccessTokenPayload :=
    { sub := userId, roles := roleNames, typ := "access", exp := now + env.accessTtlSeconds }
  let refreshToken : Token :=
    .signed { sub := userId, sid := sessionId.getD jti, jti := jti, typ := "refresh",
              exp := now + env.refreshTtlSeconds }
  let ttl := max env.refreshTtlSeconds 60
  let st1 := { st with allow := st.allow.set jti ⟨.recordJson userId sessionId, now + ttl⟩ }
  let st2 :=
    if truthyOpt sessionId then linkRefreshJti st1 userId (sessionId.getD "") jti else st1
  (⟨accessToken, refreshToken⟩, st2)

/-- `RefreshService.issueTokensForUserId`: hydrate the principal, then
`buildPair`.  The fresh `jti` (a `randomUUID`) is the parameter `jti`. -/
def issueTokensForUserId (env : RefreshEnv) (st : RefreshState) (userId : String)
    (sessionId : Option String) (jti : String) (now : Nat) :
    Except ApiErr TokenPair × RefreshState :=
  match env.users userId with
  | none => (.error (.collaborator "User is not active or not found."), st)
  | some roles =>
    let r := buildPair env st userId roles sessionId jti now
    (.ok r.1, r.2)

/-- `RefreshService.refresh`: verify (with blacklist check), shape-check
sub/jti, atomically read-and-delete the allow-list entry, validate it against
the token, blacklist the old jti, unlink it from its session, re-hydrate the
principal, and mint a new pair for `record.sessionId ?? payload.sid`.
The fresh jti of the successor pair is the parameter `newJti`. -/
def refreshSvc (env : RefreshEnv) (st : RefreshState) (tok : Token)
    (newJti : String) (now : Nat) : Except ApiErr TokenPair × RefreshState :=
  match verifyRefreshTokenSvc st tok false false now with
  | .error e => (.error e, st)
  | .ok payload =>
    if payload.sub = "" ∨ payload.jti = "" then
      (.error (.unauthorized "Malformed refresh token."), st)
    else
      -- (the TTL read before consumption is logging only)
      let gd := atomicGetDel st.allow payload.jti now
      let st1 := { st with allow := gd.2 }
      match gd.1 with
      | none =>
        (.error (.unauthorized "Refresh token is no longer valid. Please sign in again."), st1)
      | some stored =>
        match parseAllowRecord stored payload.sub (some payload.sid) with
        | none => (.error (.unauthorized "Refresh state mismatch."), st1)
        | some record =>
          let mismatch := match record.sessionId with
            | some s => s != "" && s != payload.sid
            | none => false
          if mismatch then
            (.error (.unauthorized "Refresh token session mismatch."), st1)
          else
            let st2 := safeBlacklist env st1 payload.jti now
            let st3 := match record.sessionId with
              | some s => if s != "" then unlinkRefreshJti st2 payload.sub s payload.jti else st2
              | none => st2
            match env.users payload.sub with
            | none => (.error (.collaborator "User is not active or not found."), st3)
            | some roles =>
              let sidArg : Option String := match record.sessionId with
                | some s => some s
                | none => some payload.sid
              let r := buildPair env st3 payload.sub roles sidArg newJti now
              (.ok r.1, r.2)

/-- `RefreshService.revoke`: verify ignoring expiry and skipping the blacklist
check; on malformed sub/jti return silently; delete the allow-list entry,
blacklist the jti, unlink from the session.  (Verification failures do
propagate; the logout endpoint catches them.) -/
def revokeSvc (env : RefreshEnv) (st : RefreshState) (tok : Token) (now : Nat) :
    Except ApiErr Unit × RefreshState :=
  match verifyRefreshTokenSvc st tok true true now with
  | .error e => (.error e, st)
  | .ok payload =>
    if payload.sub = "" ∨ payload.jti = "" then (.ok (), st)
    else
      let st1 := { st with allow := st.allow.del payload.jti }
      let st2 := safeBlacklist env st1 payload.jti now
      let st3 :=
        if payload.sid != "" then unlinkRefreshJti st2 payload.sub payload.sid payload.jti
        else st2
      (.ok (), st3)

/-- `RefreshService.peekPayload`: the non-throwing codec peek with
`allowBlacklisted: true`. -/
def peekPayload (st : RefreshState) (tok : Token) (ignoreExpiration : Bool)
    (now : Nat) : Option RefreshTokenPayload :=
  peekRefresh st tok ignoreExpiration true now

/-! ## RefreshRateLimitService -/

/-- `RefreshRateLimitService.consume`: fixed-window counter keyed by a hash of
the identifier (modelled by the identifier itself, with the `'anonymous'`
fallback for the empty string); `INCR`, `EXPIRE` on first hit, fail 429 above
`maxHits`. -/
def refreshRlConsume (windowSec maxHits : Nat) (st : RefreshState)
    (identifier : String) (now : Nat) : Except ApiErr Unit × RefreshState :=
  let subject := if identifier = "" then "anonymous" else identifier
  let hits := match st.refreshRl subject with
    | some e => if now < e.expireAt then e.val + 1 else 1
    | none => 1
  let expireAt := match st.refreshRl subject with
    | some e => if now < e.expireAt then e.expireAt else now + windowSec
    | none => now + windowSec
  let st1 := { st with refreshRl := st.refreshRl.set subject ⟨hits, expireAt⟩ }
  if hits > maxHits then
    (.error (.tooMany "Too many refresh attempts. Please try again later."), st1)
  else (.ok (), st1)

/-! ## AuthController (refresh and logout endpoints) -/

/-- The request fields the refresh/logout handlers read. Header strings are
`none` when absent; `cookieTok`/`dtoTok` are `none` when the cookie/body token
is absent or blank after trimming. -/
structure HttpReq where
  contentLength : Nat
  contentType : String
  originHdr : Option String
  refererHdr : Option String
  cookieTok : Option Token
  ip : Option String
  userAgent : Option String

/-- The controller-level configuration: allowed origins (already
origin-normalized strings) and the refresh rate-limit window/max
(`REFRESH_RL_WINDOW ?? 10`, `REFRESH_RL_MAX ?? 5`, both clamped to ≥ 1). -/
structure CtrlCfg where
  allowedOrigins : List String
  refreshRlWindow : Nat := 10
  refreshRlMax : Nat := 5

/-- `normalizeOrigin`: lowercase and strip trailing slashes.  (`new URL(x).origin`
is modelled as the identity on the origin-shaped header values the claims use;
non-URL strings take the same cleanup path in the code's catch branch.) -/
def normalizeOrigin (v : Option String) : String :=
  match v with
  | none => ""
  | some s => strToLower (String.mk ((s.toList.reverse.dropWhile (fun ch => ch == '/')).reverse))

/-- `assertAllowedOrigin`: pass when no origins are configured, otherwise the
normalized Origin or Referer header must be in the allow set. -/
def originAllowed (cfg : CtrlCfg) (req : HttpReq) : Bool :=
  if cfg.allowedOrigins.isEmpty then true
  else
    let o := normalizeOrigin req.originHdr
    let r := normalizeOrigin req.refererHdr
    (o != "" && cfg.allowedOrigins.contains o)
      || (r != "" && cfg.allowedOrigins.contains r)

/-- `getRateLimitKey`: `ip|user-agent` with `'unknown'` fallbacks. -/
def rateLimitKey (req : HttpReq) : String :=
  req.ip.getD "unknown" ++ "|" ++ req.userAgent.getD "unknown"

/-- The refresh endpoint's success value: the new access token and the rotated
refresh cookie. -/
structure CtrlRefreshOk where
  accessToken : AccessTokenPayload
  setCookie : Token
  deriving Repr, DecidableEq

/-- `AuthController.refresh`: no-store headers (not modelled), the
JSON-or-empty content-type gate, the CSRF origin gate, the refresh rate
limiter, cookie extraction (`MissingRefresh` when absent), then
`refreshService.refresh`; every service failure collapses to the generic
`Unauthorized('Invalid or expired refresh token.')`.  The handler performs no
session-registry call of its own. -/
def controllerRefresh (ccfg : CtrlCfg) (env : RefreshEnv) (st : RefreshState)
    (req : HttpReq) (newJti : String) (now : Nat) :
    Except ApiErr CtrlRefreshOk × RefreshState :=
  if req.contentLength ≠ 0 ∧ ¬ containsSub (strToLower req.contentType) "application/json" then
    (.error (.badRequest "Content-Type must be application/json."), st)
  else if ¬ originAllowed ccfg req then
    (.error (.forbidden "Origin is not allowed for refresh."), st)
  else
    match refreshRlConsume ccfg.refreshRlWindow ccfg.refreshRlMax st (rateLimitKey req) now with
    | (.error e, st1) => (.error e, st1)
    | (.ok _, st1) =>
      match req.cookieTok with
      | none => (.error (.unauthorized "No refresh cookie"), st1)
      | some tok =>
        match refreshSvc env st1 tok newJti now with
        | (.ok pair, st2) => (.ok ⟨pair.accessToken, pair.refreshToken⟩, st2)
        | (.error _, st2) =>
          (.error (.unauthorized "Invalid or expired refresh token."), st2)

/-- The logout endpoint's response: `{success:true}` plus the unconditional
cookie clearing. -/
structure LogoutResult where
  success : Bool
  clearedCookie : Bool
  deriving Repr, DecidableEq

/-- `AuthController.logout`: prefer the body token over the cookie, always
clear the cookie, return `{success:true}` with no token, and swallow every
`revoke` failure — the endpoint never throws. -/
def controllerLogout (env : RefreshEnv) (st : RefreshState)
    (dtoTok cookieTok : Option Token) (now : Nat) : LogoutResult × RefreshState :=
  let tok := match dtoTok with
    | some t => some t
    | none => cookieTok
  match tok with
  | none => (⟨true, true⟩, st)
  | some t =>
    match revokeSvc env st t now with
    | (.ok _, st1) => (⟨true, true⟩, st1)
    | (.error _, st1) => (⟨true, true⟩, st1)

/-! ## Result classifiers -/

/-- Did the call succeed? -/
def isOkRes {α : Type} : Except ApiErr α → Bool
  | .ok _ => true
  | .error _ => false

/-- Did the call fail with an `UnauthorizedException` (any message)? -/
def isUnauthorizedRes {α : Type} : Except ApiErr α → Bool
  | .error (.unauthorized _) => true
  | _ => false

/-- Did the call fail with a `ForbiddenException` (any message)? -/
def isForbiddenRes {α : Type} : Except ApiErr α → Bool
  | .error (.forbidden _) => true
  | _ => false

/-! ## Repeated-verification machinery (for the lockout claim) -/

/-- The state after a sequence of `verifyOtp` calls (same tuple, same supplied
code, fresh ticket parameters irrelevant on failing calls) at the given times. -/
def verifyRun (env : OtpEnv) (c : OtpChannel) (raw code : String) (p : OtpPurpose)
    (ip : Option String) (jti tk : String) : OtpState → List Nat → OtpState
  | st, [] => st
  | st, t :: ts =>
    verifyRun env c raw code p ip jti tk (verifyOtp env st c raw code p ip jti tk t).2 ts

/-- Every call of the sequence passes its verify rate-limit buckets (the
fixed-window counters stay within their maxima at each step). -/
def verifiesRateOk (env : OtpEnv) (c : OtpChannel) (raw code : String) (p : OtpPurpose)
    (ip : Option String) (jti tk : String) : OtpState → List Nat → Prop
  | _, [] => True
  | st, t :: ts =>
    (consumeVerifyBucket env.cfg st.rl (normalizeIdentifier c raw) ip c p t).1 = .ok ()
      ∧ verifiesRateOk env c raw code p ip jti tk
          (verifyOtp env st c raw code p ip jti tk t).2 ts

/-! ## Sample data for concrete runs -/

def RefreshState.empty : RefreshState :=
  { allow := SMap.empty, rbl := SMap.empty, refreshRl := SMap.empty,
    links := [], lastUsed := SMap.empty }

/-- A users collaborator knowing the single active user `"u"`. -/
def usersU : String → Option (List String) :=
  fun u => if u = "u" then some ["user"] else none

def sampleRefreshEnv : RefreshEnv :=
  { refreshTtlSeconds := 100, accessTtlSeconds := 600, users := usersU }

/-- OTP environment with default config and the identity as the code hash
(hash values only ever flow through equality tests). -/
def idOtpEnv : OtpEnv := { cfg := {}, hashFn := fun s => s }

/-- An active OTP record whose resend cooldown is still running at `now = 1000`. -/
def c6Rec : OtpRecord :=
  { codeHash := "111111", attempts := 0, maxAttempts := 5, exp := 1300,
    resendAt := 1120, sendCount := 1, ip := "", ch := .sms, pu := .login }

/-- State with an in-cooldown record for `(sms, "id1", login)` and the
per-identifier request bucket already at its maximum (3 hits, window live). -/
def c6State : OtpState :=
  { OtpState.empty with
      active := SMap.empty.set (keyActive .login .sms "id1") ⟨c6Rec, 1300⟩
      rl := SMap.empty.set (rlKey "req" "id" "id1" .sms .login) ⟨3, 2000⟩ }

/-- State with no active record and the per-identifier request bucket at 2 of
its maximum 3 hits (window live at `now = 1000`). -/
def c8State : OtpState :=
  { OtpState.empty with
      rl := SMap.empty.set (rlKey "req" "id" "id1" .sms .login) ⟨2, 2000⟩ }

/-- State with only the in-cooldown record (all rate buckets untouched). -/
def c6WitState : OtpState :=
  { OtpState.empty with
      active := SMap.empty.set (keyActive .login .sms "id1") ⟨c6Rec, 1300⟩ }

/-- State with an in-cooldown record and a live Block Record for the tuple. -/
def c8BlockState : OtpState :=
  { OtpState.empty with
      active := SMap.empty.set (keyActive .login .sms "id1") ⟨c6Rec, 1300⟩
      blockK := SMap.empty.set (keyBlock .login .sms "id1") ⟨"1", 1500⟩ }

/-- State whose record key is still live (TTL 5000) while the record's own
`exp` field (1300) has already lapsed at `now = 2000`. -/
def c7StaleState : OtpState :=
  { OtpState.empty with
      active := SMap.empty.set (keyActive .login .sms "id1") ⟨c6Rec, 5000⟩ }

/-- A freshly issued record (attempts 0, default maxAttempts 5) created at
time 0: `exp = 300`, key TTL 300, cooldown until 120. -/
def c3Rec : OtpRecord :=
  { codeHash := "111111", attempts := 0, maxAttempts := 5, exp := 300,
    resendAt := 120, sendCount := 1, ip := "", ch := .sms, pu := .login }

def c3State : OtpState :=
  { OtpState.empty with
      active := SMap.empty.set (keyActive .login .sms "id1") ⟨c3Rec, 300⟩ }

/-- Refresh store for the session-touch run: one session `("u","s")` with
`lastUsedAt = 100`, its live refresh jti `"j"` in the allow-list and linked. -/
def c4State : RefreshState :=
  { allow := SMap.empty.set "j" ⟨.recordJson "u" (some "s"), 2000⟩
    rbl := SMap.empty
    refreshRl := SMap.empty
    links := [("u", "s", "j")]
    lastUsed := SMap.empty.set "u:s" 100 }

def c4Cfg : CtrlCfg := { allowedOrigins := ["http://localhost:3000"] }

/-- A well-formed refresh request carrying the live cookie token for `"j"`. -/
def c4Req : HttpReq :=
  { contentLength := 0, contentType := "",
    originHdr := some "http://localhost:3000", refererHdr := none,
    cookieTok := some (.signed ⟨"u", "s", "j", "refresh", 1000⟩),
    ip := some "1.2.3.4", userAgent := some "jest" }

/-- Refresh store whose allow-list holds the legacy raw value `'1'` for jti `"j"`. -/
def c10State : RefreshState :=
  { RefreshState.empty with allow := SMap.empty.set "j" ⟨.legacyOne, 2000⟩ }

/-! ## Helper lemmas -/

theorem SMap.get_set {α : Type} (m : SMap α) (k x : String) (v : α) :
    (m.set k v) x = if x = k then some v else m x := rfl

theorem SMap.get_del {α : Type} (m : SMap α) (k x : String) :
    (m.del k) x = if x = k then none else m x := rfl

theorem SMap.get_set_self {α : Type} (m : SMap α) (k : String) (v : α) :
    (m.set k v) k = some v := by simp [SMap.set]

theorem SMap.get_set_ne {α : Type} (m : SMap α) {k x : String} (v : α) (h : x ≠ k) :
    (m.set k v) x = m x := by simp [SMap.set, h]

theorem SMap.get_del_self {α : Type} (m : SMap α) (k : String) :
    (m.del k) k = none := by simp [SMap.del]

theorem SMap.get_del_ne {α : Type} (m : SMap α) {k x : String} (h : x ≠ k) :
    (m.del k) x = m x := by simp [SMap.del, h]

/-! ## C9 -/

/-- C9: there is an input that is not a validly signed refresh token — its
signature verification fails — on which `peekRefresh` (and the `peekPayload`
wrapper) still returns a non-null payload: the raw base64-decoded claims are
returned from the catch-block fallback, bypassing the typ/jti/sid shape checks
(here the claims would fail all three). -/
theorem c9_peek_returns_raw_claims_on_bad_signature :
    ∃ (raw : RefreshTokenPayload) (st : RefreshState) (now : Nat),
      safeVerifyRefresh (.badSig (some raw)) false now =
          .error (.unauthorized "Invalid token.")
        ∧ (raw.typ ≠ "refresh" ∧ raw.jti = "" ∧ raw.sid = "")
        ∧ peekRefresh st (.badSig (some raw)) false true now = some raw
        ∧ peekPayload st (.badSig (some raw)) false now = some raw := by
  refine ⟨⟨"u", "", "", "junk", 0⟩, RefreshState.empty, 0, rfl, ⟨?_, rfl, rfl⟩, rfl, rfl⟩
  decide

/-! ## C5 -/

/-- C5: the logout endpoint returns `{success:true}` (with the cookie cleared)
for every input — no token, revoked, expired, malformed alike — and the
underlying `revoke` of a well-formed refresh token whose allow-list entry is
missing/already gone completes without raising. -/
theorem c5_logout_idempotent
    (env : RefreshEnv) (st : RefreshState) (dtoTok cookieTok : Option Token)
    (now : Nat) (p : RefreshTokenPayload) :
    (controllerLogout env st dtoTok cookieTok now).1 = ⟨true, true⟩
      ∧ (p.typ = "refresh" → p.sub ≠ "" → p.jti ≠ "" → p.sid ≠ "" →
          st.allow p.jti = none →
          (revokeSvc env st (.signed p) now).1 = .ok ()) := by
  constructor
  · unfold controllerLogout
    rcases dtoTok with _ | t
    · rcases cookieTok with _ | t
      · rfl
      · rcases h : revokeSvc env st t now with ⟨r, s⟩
        rcases r <;> simp [h]
    · rcases h : revokeSvc env st t now with ⟨r, s⟩
      rcases r <;> simp [h]
  · intro htyp hsub hjti hsid _hallow
    simp [revokeSvc, verifyRefreshTokenSvc, tokenVerifyRefresh, safeVerifyRefresh,
      htyp, hsub, hjti, hsid]

/-- Witness for C5 at a concrete input: empty store, no tokens supplied, and a
well-formed token for the (absent) jti `"j"`. -/
theorem c5_witness :
    (controllerLogout sampleRefreshEnv RefreshState.empty none none 0).1 = ⟨true, true⟩
      ∧ (revokeSvc sampleRefreshEnv RefreshState.empty
          (.signed ⟨"u", "s", "j", "refresh", 1000⟩) 0).1 = .ok () := by
  have h := c5_logout_idempotent sampleRefreshEnv RefreshState.empty none none 0
    ⟨"u", "s", "j", "refresh", 1000⟩
  exact ⟨h.1, h.2 rfl (by decide) (by decide) (by decide) rfl⟩

/-! ## C10 -/

/-- C10 at the failing input: issuing without a sessionId does put `sid = jti`
in the signed token and store `sessionId = null` in the allow-list entry (and
the session-mismatch comparison is skipped for a null stored sessionId), but a
stored legacy allow-list value `'1'` is NOT accepted: `JSON.parse('1')`
succeeds with the number 1, `rec?.userId` is falsy, `parseAllowRecord` returns
null, and `refresh()` rejects with `Refresh state mismatch.` — the catch-block
fallback meant to accept `'1'` is unreachable. -/
theorem c10_legacy_allow_value_rejected :
    (issueTokensForUserId sampleRefreshEnv RefreshState.empty "u" none "j0" 0).1 =
        .ok ⟨⟨"u", ["user"], "access", 600⟩,
             .signed ⟨"u", "j0", "j0", "refresh", 100⟩⟩
      ∧ ((issueTokensForUserId sampleRefreshEnv RefreshState.empty "u" none "j0" 0).2).allow "j0"
          = some ⟨.recordJson "u" none, 100⟩
      ∧ parseAllowRecord .legacyOne "u" (some "s") = none
      ∧ (refreshSvc sampleRefreshEnv c10State (.signed ⟨"u", "s", "j", "refresh", 1000⟩)
          "j2" 10).1 = .error (.unauthorized "Refresh state mismatch.") := by
  exact ⟨rfl, rfl, rfl, rfl⟩

/-! ## C4 -/

/-- C4 at the failing input: a fully successful refresh — content-type, origin
and rate-limit gates all pass, the allow-list entry is consumed and a new pair
is issued — leaves the owning session's `lastUsedAt` untouched (still the
pre-refresh value 100, not the value 200 that `SessionService.touch` would
have written at the refresh instant): neither `AuthController.refresh` nor
`RefreshService.refresh` invokes the session registry's touch operation. -/
theorem c4_refresh_does_not_touch_session :
    (controllerRefresh c4Cfg sampleRefreshEnv c4State c4Req "j2" 200).1 =
        .ok ⟨⟨"u", ["user"], "access", 800⟩,
             .signed ⟨"u", "s", "j2", "refresh", 300⟩⟩
      ∧ ((controllerRefresh c4Cfg sampleRefreshEnv c4State c4Req "j2" 200).2).lastUsed "u:s"
          = some 100
      ∧ (sessionTouch
          ((controllerRefresh c4Cfg sampleRefreshEnv c4State c4Req "j2" 200).2)
          "u" "s" 200).lastUsed "u:s" = some 200 := by
  exact ⟨rfl, rfl, rfl⟩

/-! ## C7 -/

/-- C7: every `verifyOtp` failure caused by a code-hash mismatch raises exactly
the same exception (same type, same message, `BadRequest("Invalid or expired
code.")`) as the no-record case and as the past-expiry case, so the caller
cannot tell wrong-code from not-found/expired apart from the failure alone. -/
theorem c7_wrong_code_indistinguishable_from_missing :
    ∀ (env : OtpEnv) (st : OtpState) (c : OtpChannel) (raw code : String)
      (p : OtpPurpose) (ip : Option String) (jti tk : String) (now : Nat)
      (e : Expiring OtpRecord),
      ((consumeVerifyBucket env.cfg st.rl (normalizeIdentifier c raw) ip c p now).1 = .ok () →
        getLive st.blockK (keyBlock p c (normalizeIdentifier c raw)) now = none →
        st.active (keyActive p c (normalizeIdentifier c raw)) = some e →
        now < e.expireAt →
        now < e.val.exp →
        e.val.attempts + 1 ≤ e.val.maxAttempts →
        env.hashFn code ≠ e.val.codeHash →
        (verifyOtp env st c raw code p ip jti tk now).1 =
          .error (.badRequest invalidCodeMsg))
      ∧ ((consumeVerifyBucket env.cfg st.rl (normalizeIdentifier c raw) ip c p now).1 = .ok () →
          getLive st.blockK (keyBlock p c (normalizeIdentifier c raw)) now = none →
          getLive st.active (keyActive p c (normalizeIdentifier c raw)) now = none →
          (verifyOtp env st c raw code p ip jti tk now).1 =
            .error (.badRequest invalidCodeMsg))
      ∧ ((consumeVerifyBucket env.cfg st.rl (normalizeIdentifier c raw) ip c p now).1 = .ok () →
          getLive st.blockK (keyBlock p c (normalizeIdentifier c raw)) now = none →
          st.active (keyActive p c (normalizeIdentifier c raw)) = some e →
          now < e.expireAt →
          e.val.exp ≤ now →
          (verifyOtp env st c raw code p ip jti tk now).1 =
            .error (.badRequest invalidCodeMsg)) := by
  intro env st c raw code p ip jti tk now e
  rcases hcv : consumeVerifyBucket env.cfg st.rl (normalizeIdentifier c raw) ip c p now
    with ⟨res, m1⟩
  rcases res with _ | err
  case error =>
    refine ⟨?_, ?_, ?_⟩ <;> intro hrate <;> simp at hrate
  case ok =>
    refine ⟨?_, ?_, ?_⟩
    · intro _ hblock hact hlive hexp hatt hcode
      unfold verifyOtp
      try dsimp only
      rw [hcv]
      try dsimp only
      rw [hblock]
      rw [if_neg (show ¬ ((none : Option String).isSome = true) by simp)]
      rw [hact]
      try dsimp only
      rw [if_pos hlive]
      try dsimp only
      rw [if_neg (show ¬ (e.val.exp ≤ now) by omega)]
      try dsimp only
      rw [if_neg (show ¬ (e.val.attempts + 1 > e.val.maxAttempts) by omega)]
      rw [if_pos hcode]
    · intro _ hblock hgl
      unfold verifyOtp
      try dsimp only
      rw [hcv]
      try dsimp only
      rw [hblock]
      rw [if_neg (show ¬ ((none : Option String).isSome = true) by simp)]
      unfold getLive at hgl
      rcases hact : st.active (keyActive p c (normalizeIdentifier c raw)) with _ | e2
      · rfl
      · rw [hact] at hgl
        try dsimp only
        have hnl : ¬ now < e2.expireAt := by
          intro h
          dsimp only at hgl
          rw [if_pos h] at hgl
          simp at hgl
        rw [if_neg hnl]
    · intro _ hblock hact hlive hexp
      unfold verifyOtp
      try dsimp only
      rw [hcv]
      try dsimp only
      rw [hblock]
      rw [if_neg (show ¬ ((none : Option String).isSome = true) by simp)]
      rw [hact]
      try dsimp only
      rw [if_pos hlive]
      try dsimp only
      rw [if_pos hexp]

/-- Witness for C7 at concrete inputs: wrong code against `c6WitState`, the
empty store for not-found, and a stale record for past-expiry. -/
theorem c7_witness :
    (verifyOtp idOtpEnv c6WitState .sms "id1" "000000" .login none "j" "t" 1000).1 =
        .error (.badRequest invalidCodeMsg)
      ∧ (verifyOtp idOtpEnv OtpState.empty .sms "id1" "000000" .login none "j" "t" 1000).1 =
        .error (.badRequest invalidCodeMsg)
      ∧ (verifyOtp idOtpEnv c7StaleState .sms "id1" "000000" .login none "j" "t" 2000).1 =
        .error (.badRequest invalidCodeMsg) := by
  refine ⟨?_, ?_, ?_⟩
  · exact (c7_wrong_code_indistinguishable_from_missing idOtpEnv c6WitState .sms "id1"
      "000000" .login none "j" "t" 1000 ⟨c6Rec, 1300⟩).1 rfl rfl (by decide) (by decide)
      (by decide) (by decide) (by decide)
  · exact (c7_wrong_code_indistinguishable_from_missing idOtpEnv OtpState.empty .sms "id1"
      "000000" .login none "j" "t" 1000 ⟨c6Rec, 1300⟩).2.1 rfl rfl rfl
  · exact (c7_wrong_code_indistinguishable_from_missing idOtpEnv c7StaleState .sms "id1"
      "000000" .login none "j" "t" 2000 ⟨c6Rec, 5000⟩).2.2 rfl rfl (by decide) (by decide)
      (by decide)

/-! ## C6 -/

/-- Behavior of `requestOtp` when the bucket consumption succeeds, the tuple is
not blocked, and a live record is still in its resend cooldown: the cooldown
response is returned and only the rate counters change. -/
theorem requestOtp_cooldown (env : OtpEnv) (st : OtpState) (c : OtpChannel)
    (raw : String) (p : OtpPurpose) (ip : Option String) (code : String) (now : Nat)
    (e : Expiring OtpRecord) (m1 : SMap (Expiring Nat))
    (hcv : consumeRequestBucket env.cfg st.rl (normalizeIdentifier c raw) ip c p now =
      (.ok (), m1))
    (hblock : getLive st.blockK (keyBlock p c (normalizeIdentifier c raw)) now = none)
    (hact : st.active (keyActive p c (normalizeIdentifier c raw)) = some e)
    (hlive : now < e.expireAt)
    (hcd : now < e.val.resendAt) :
    requestOtp env st c raw p ip code now =
      (.ok ⟨true, e.val.exp - now, e.val.resendAt - now⟩, { st with rl := m1 }) := by
  unfold requestOtp
  dsimp only
  rw [hcv]
  dsimp only
  rw [hblock]
  rw [if_neg (show ¬ ((none : Option String).isSome = true) by simp)]
  unfold getLive
  rw [hact]
  dsimp only
  rw [if_pos hlive]
  dsimp only
  rw [if_pos (show e.val.resendAt - now > 0 by omega)]

/-- C6 counterexample: the tuple `(sms, "id1", login)` has an active OTP record
whose `resendAvailableAt` (1120) lies in the future at `now = 1000`, yet
`requestOtp` does not return `alreadyActive:true` — the per-identifier request
bucket is already at its maximum, so the call fails with `TooManyRequests`
before the cooldown short-circuit is reached. -/
theorem c6_counterexample :
    getLive c6State.active (keyActive .login .sms "id1") 1000 = some c6Rec
      ∧ 1000 < c6Rec.resendAt
      ∧ (requestOtp idOtpEnv c6State .sms "id1" .login none "222222" 1000).1 =
          .error (.tooMany reqMaxIdMsg) := by
  exact ⟨rfl, by decide, rfl⟩

/-- C6 (amended): for a tuple with a live OTP record whose cooldown has not
elapsed, provided the tuple is not blocked and neither call exhausts a request
rate-limit bucket, two `requestOtp` calls within the cooldown window both
return `alreadyActive:true` with the remaining windows, generate no new code,
and leave the stored record — its `codeHash` included — and the cooldown,
block and ticket keyspaces unchanged (only rate-limit counters move). -/
theorem c6_cooldown_idempotent :
    ∀ (env : OtpEnv) (st : OtpState) (c : OtpChannel) (raw : String) (p : OtpPurpose)
      (ip : Option String) (code1 code2 : String) (now1 now2 : Nat)
      (e : Expiring OtpRecord),
      (consumeRequestBucket env.cfg st.rl (normalizeIdentifier c raw) ip c p now1).1 = .ok () →
      getLive st.blockK (keyBlock p c (normalizeIdentifier c raw)) now1 = none →
      st.active (keyActive p c (normalizeIdentifier c raw)) = some e →
      now1 < e.expireAt →
      now1 < e.val.resendAt →
      (consumeRequestBucket env.cfg ((requestOtp env st c raw p ip code1 now1).2).rl
          (normalizeIdentifier c raw) ip c p now2).1 = .ok () →
      getLive st.blockK (keyBlock p c (normalizeIdentifier c raw)) now2 = none →
      now2 < e.expireAt →
      now2 < e.val.resendAt →
      (requestOtp env st c raw p ip code1 now1).1 =
          .ok ⟨true, e.val.exp - now1, e.val.resendAt - now1⟩
        ∧ ((requestOtp env st c raw p ip code1 now1).2).active = st.active
        ∧ ((requestOtp env st c raw p ip code1 now1).2).cooldown = st.cooldown
        ∧ ((requestOtp env st c raw p ip code1 now1).2).blockK = st.blockK
        ∧ ((requestOtp env st c raw p ip code1 now1).2).ticket = st.ticket
        ∧ (requestOtp env ((requestOtp env st c raw p ip code1 now1).2) c raw p ip
            code2 now2).1 = .ok ⟨true, e.val.exp - now2, e.val.resendAt - now2⟩
        ∧ (requestOtp env ((requestOtp env st c raw p ip code1 now1).2) c raw p ip
            code2 now2).2.active = st.active
        ∧ (requestOtp env ((requestOtp env st c raw p ip code1 now1).2) c raw p ip
            code2 now2).2.cooldown = st.cooldown
        ∧ (requestOtp env ((requestOtp env st c raw p ip code1 now1).2) c raw p ip
            code2 now2).2.blockK = st.blockK
        ∧ (requestOtp env ((requestOtp env st c raw p ip code1 now1).2) c raw p ip
            code2 now2).2.ticket = st.ticket := by
  intro env st c raw p ip code1 code2 now1 now2 e h1 hb1 ha hl1 hr1 h2 hb2 hl2 hr2
  rcases hcv1 : consumeRequestBucket env.cfg st.rl (normalizeIdentifier c raw) ip c p now1
    with ⟨r1, m1⟩
  rw [hcv1] at h1
  rcases r1 with a | u
  · simp at h1
  · cases u
    have hreq1 := requestOtp_cooldown env st c raw p ip code1 now1 e m1 hcv1 hb1 ha hl1 hr1
    rw [hreq1] at h2
    rcases hcv2 : consumeRequestBucket env.cfg m1 (normalizeIdentifier c raw) ip c p now2
      with ⟨r2, m2⟩
    rw [show consumeRequestBucket env.cfg ({ st with rl := m1 } : OtpState).rl
        (normalizeIdentifier c raw) ip c p now2 =
        consumeRequestBucket env.cfg m1 (normalizeIdentifier c raw) ip c p now2 from rfl,
      hcv2] at h2
    rcases r2 with a | u2
    · simp at h2
    · cases u2
      have hreq2 := requestOtp_cooldown env { st with rl := m1 } c raw p ip code2 now2 e m2
        hcv2 hb2 ha hl2 hr2
      rw [hreq1, hreq2]
      exact ⟨rfl, rfl, rfl, rfl, rfl, rfl, rfl, rfl, rfl, rfl⟩

/-- Witness for C6 at concrete inputs: the in-cooldown record of `c6WitState`
at `now1 = 1000`, `now2 = 1001`. -/
theorem c6_witness :
    (requestOtp idOtpEnv c6WitState .sms "id1" .login none "9" 1000).1 =
        .ok ⟨true, 300, 120⟩
      ∧ (requestOtp idOtpEnv
          ((requestOtp idOtpEnv c6WitState .sms "id1" .login none "9" 1000).2)
          .sms "id1" .login none "8" 1001).1 = .ok ⟨true, 299, 119⟩ := by
  have h := c6_cooldown_idempotent idOtpEnv c6WitState .sms "id1" .login none "9" "8"
    1000 1001 ⟨c6Rec, 1300⟩ rfl rfl rfl (by decide) (by decide) rfl rfl
    (by decide) (by decide)
  exact ⟨h.1, h.2.2.2.2.2.1⟩

/-! ## C8 -/

/-- C8 counterexample: same store state (no active record, per-identifier
request bucket at 2 of max 3), same inputs — `requestOtp` succeeds and issues a
code, while `resendOtp` fails with `TooManyRequests`: the delegation inside
`resendOtp` consumes the request bucket a second time, so resend and request do
not produce the same result on every state. -/
theorem c8_counterexample :
    (requestOtp idOtpEnv c8State .sms "id1" .login none "222222" 1000).1 =
        .ok ⟨false, 300, 120⟩
      ∧ (resendOtp idOtpEnv c8State .sms "id1" .login none "222222" 1000).1 =
        .error (.tooMany reqMaxIdMsg) := by
  exact ⟨rfl, rfl⟩

/-- C8 (amended): (i) when an active record exists (live key) and the tuple is
not blocked, `resendOtp` coincides with `requestOtp` exactly — same result and
same state changes, whether the bucket consumption succeeds or not; (ii) when
no active record exists, `resendOtp` first consumes the request bucket once
and then behaves as a fresh `requestOtp` from the post-consumption state, so
the bucket is consumed twice and the results coincide only when the extra
consumption does not trip the limit; (iii) `resendOtp` performs no block check
of its own: on a blocked tuple with an in-cooldown record, `requestOtp` fails
with Forbidden while `resendOtp` returns the cooldown response. -/
theorem c8_resend_vs_request :
    (∀ (env : OtpEnv) (st : OtpState) (c : OtpChannel) (raw : String) (p : OtpPurpose)
        (ip : Option String) (code : String) (now : Nat) (e : Expiring OtpRecord),
        st.active (keyActive p c (normalizeIdentifier c raw)) = some e →
        now < e.expireAt →
        getLive st.blockK (keyBlock p c (normalizeIdentifier c raw)) now = none →
        resendOtp env st c raw p ip code now = requestOtp env st c raw p ip code now)
      ∧ (∀ (env : OtpEnv) (st : OtpState) (c : OtpChannel) (raw : String) (p : OtpPurpose)
          (ip : Option String) (code : String) (now : Nat) (m1 : SMap (Expiring Nat)),
          consumeRequestBucket env.cfg st.rl (normalizeIdentifier c raw) ip c p now =
            (.ok (), m1) →
          getLive st.active (keyActive p c (normalizeIdentifier c raw)) now = none →
          resendOtp env st c raw p ip code now =
            requestOtp env { st with rl := m1 } c (normalizeIdentifier c raw) p ip code now)
      ∧ (∀ (env : OtpEnv) (st : OtpState) (c : OtpChannel) (raw : String) (p : OtpPurpose)
          (ip : Option String) (code : String) (now : Nat) (e : Expiring OtpRecord)
          (v : String) (m1 : SMap (Expiring Nat)),
          consumeRequestBucket env.cfg st.rl (normalizeIdentifier c raw) ip c p now =
            (.ok (), m1) →
          getLive st.blockK (keyBlock p c (normalizeIdentifier c raw)) now = some v →
          st.active (keyActive p c (normalizeIdentifier c raw)) = some e →
          now < e.expireAt →
          now < e.val.resendAt →
          (requestOtp env st c raw p ip code now).1 = .error (.forbidden blockedMsg)
            ∧ (resendOtp env st c raw p ip code now).1 =
                .ok ⟨true, e.val.exp - now, e.val.resendAt - now⟩) := by
  refine ⟨?_, ?_, ?_⟩
  · intro env st c raw p ip code now e ha hlive hb
    rcases hcv : consumeRequestBucket env.cfg st.rl (normalizeIdentifier c raw) ip c p now
      with ⟨r, m1⟩
    unfold resendOtp requestOtp
    dsimp only
    rw [hcv]
    rcases r with a | u
    · rfl
    · cases u
      dsimp only
      rw [hb]
      rw [if_neg (show ¬ ((none : Option String).isSome = true) by simp)]
      unfold getLive
      rw [ha]
      dsimp only
      rw [if_pos hlive]
  · intro env st c raw p ip code now m1 hcv hgl
    unfold resendOtp
    dsimp only
    rw [hcv]
    dsimp only
    rw [hgl]
  · intro env st c raw p ip code now e v m1 hcv hb ha hlive hcd
    constructor
    · unfold requestOtp
      dsimp only
      rw [hcv]
      dsimp only
      rw [hb]
      rw [if_pos (show ((some v : Option String)).isSome = true by simp)]
    · unfold resendOtp
      dsimp only
      rw [hcv]
      dsimp only
      unfold getLive
      rw [ha]
      dsimp only
      rw [if_pos hlive]
      dsimp only
      rw [if_pos (show e.val.resendAt - now > 0 by omega)]

/-- Witness for C8 at concrete inputs: (i) in-cooldown record, (ii) empty
store delegation, (iii) blocked tuple with an in-cooldown record. -/
theorem c8_witness :
    resendOtp idOtpEnv c6WitState .sms "id1" .login none "5" 1000 =
        requestOtp idOtpEnv c6WitState .sms "id1" .login none "5" 1000
      ∧ resendOtp idOtpEnv OtpState.empty .sms "id1" .login none "5" 1000 =
          requestOtp idOtpEnv
            { OtpState.empty with
                rl := (consumeRequestBucket idOtpEnv.cfg OtpState.empty.rl "id1" none
                  .sms .login 1000).2 }
            .sms "id1" .login none "5" 1000
      ∧ (requestOtp idOtpEnv c8BlockState .sms "id1" .login none "5" 1000).1 =
          .error (.forbidden blockedMsg)
      ∧ (resendOtp idOtpEnv c8BlockState .sms "id1" .login none "5" 1000).1 =
          .ok ⟨true, 300, 120⟩ := by
  have ha := c8_resend_vs_request.1 idOtpEnv c6WitState .sms "id1" .login none "5" 1000
    ⟨c6Rec, 1300⟩ rfl (by decide) rfl
  have hb := c8_resend_vs_request.2.1 idOtpEnv OtpState.empty .sms "id1" .login none "5" 1000
    (consumeRequestBucket idOtpEnv.cfg OtpState.empty.rl "id1" none .sms .login 1000).2
    rfl rfl
  have hc := c8_resend_vs_request.2.2 idOtpEnv c8BlockState .sms "id1" .login none "5" 1000
    ⟨c6Rec, 1300⟩ "1"
    (consumeRequestBucket idOtpEnv.cfg c8BlockState.rl "id1" none .sms .login 1000).2
    rfl rfl rfl (by decide) (by decide)
  exact ⟨ha, hb, hc.1, hc.2⟩

/-! ## C3 -/

/-- One failed `verifyOtp` step below the attempt cap: the error is
`BadRequest` and the only changes are the attempt counter (HINCRBY, key TTL
kept) and the rate counters. -/
theorem verifyOtp_fail_increments (env : OtpEnv) (st : OtpState) (c : OtpChannel)
    (raw code : String) (p : OtpPurpose) (ip : Option String) (jti tk : String)
    (now : Nat) (e : Expiring OtpRecord) (m1 : SMap (Expiring Nat))
    (hcv : consumeVerifyBucket env.cfg st.rl (normalizeIdentifier c raw) ip c p now =
      (.ok (), m1))
    (hblock : getLive st.blockK (keyBlock p c (normalizeIdentifier c raw)) now = none)
    (hact : st.active (keyActive p c (normalizeIdentifier c raw)) = some e)
    (hlive : now < e.expireAt)
    (hexp : now < e.val.exp)
    (hatt : e.val.attempts + 1 ≤ e.val.maxAttempts)
    (hcode : env.hashFn code ≠ e.val.codeHash) :
    verifyOtp env st c raw code p ip jti tk now =
      (.error (.badRequest invalidCodeMsg),
        { st with
            rl := m1
            active := st.active.set (keyActive p c (normalizeIdentifier c raw))
              ⟨{ e.val with attempts := e.val.attempts + 1 }, e.expireAt⟩ }) := by
  unfold verifyOtp
  try dsimp only
  rw [hcv]
  try dsimp only
  rw [hblock]
  rw [if_neg (show ¬ ((none : Option String).isSome = true) by simp)]
  rw [hact]
  try dsimp only
  rw [if_pos hlive]
  try dsimp only
  rw [if_neg (show ¬ (e.val.exp ≤ now) by omega)]
  try dsimp only
  rw [if_neg (show ¬ (e.val.attempts + 1 > e.val.maxAttempts) by omega)]
  rw [if_pos hcode]

/-- The `verifyOtp` step that crosses the cap (`attempts + 1 > maxAttempts`):
one MULTI deletes the OTP record and creates the Block Record with the
configured block-window TTL, and the call fails with Forbidden. -/
theorem verifyOtp_overflow_blocks (env : OtpEnv) (st : OtpState) (c : OtpChannel)
    (raw code : String) (p : OtpPurpose) (ip : Option String) (jti tk : String)
    (now : Nat) (e : Expiring OtpRecord) (m1 : SMap (Expiring Nat))
    (hcv : consumeVerifyBucket env.cfg st.rl (normalizeIdentifier c raw) ip c p now =
      (.ok (), m1))
    (hblock : getLive st.blockK (keyBlock p c (normalizeIdentifier c raw)) now = none)
    (hact : st.active (keyActive p c (normalizeIdentifier c raw)) = some e)
    (hlive : now < e.expireAt)
    (hexp : now < e.val.exp)
    (hatt : e.val.maxAttempts < e.val.attempts + 1) :
    verifyOtp env st c raw code p ip jti tk now =
      (.error (.forbidden blockedMsg),
        { st with
            rl := m1
            active := (st.active.set (keyActive p c (normalizeIdentifier c raw))
              ⟨{ e.val with attempts := e.val.attempts + 1 }, e.expireAt⟩).del
                (keyActive p c (normalizeIdentifier c raw))
            blockK := st.blockK.set (keyBlock p c (normalizeIdentifier c raw))
              ⟨"1", now + env.cfg.blockWindowSeconds⟩ }) := by
  unfold verifyOtp
  try dsimp only
  rw [hcv]
  try dsimp only
  rw [hblock]
  rw [if_neg (show ¬ ((none : Option String).isSome = true) by simp)]
  rw [hact]
  try dsimp only
  rw [if_pos hlive]
  try dsimp only
  rw [if_neg (show ¬ (e.val.exp ≤ now) by omega)]
  try dsimp only
  rw [if_pos (show e.val.attempts + 1 > e.val.maxAttempts by omega)]

/-- Running wrong-code `verifyOtp` calls while the running total stays within
`maxAttempts`: every call fails `BadRequest`, the attempt counter tracks the
number of failed calls exactly, and no Block Record is created. -/
theorem verifyRun_below_cap (env : OtpEnv) (c : OtpChannel) (raw code : String)
    (p : OtpPurpose) (ip : Option String) (jti tk : String) :
    ∀ (ts : List Nat) (st : OtpState) (e : Expiring OtpRecord),
      st.active (keyActive p c (normalizeIdentifier c raw)) = some e →
      (∀ t ∈ ts, t < e.val.exp ∧ t < e.expireAt) →
      (∀ t ∈ ts, getLive st.blockK (keyBlock p c (normalizeIdentifier c raw)) t = none) →
      verifiesRateOk env c raw code p ip jti tk st ts →
      env.hashFn code ≠ e.val.codeHash →
      e.val.attempts + ts.length ≤ e.val.maxAttempts →
      (verifyRun env c raw code p ip jti tk st ts).active
          (keyActive p c (normalizeIdentifier c raw)) =
          some ⟨{ e.val with attempts := e.val.attempts + ts.length }, e.expireAt⟩
        ∧ (verifyRun env c raw code p ip jti tk st ts).blockK = st.blockK := by
  intro ts
  induction ts with
  | nil =>
    intro st e ha _ _ _ _ _
    constructor
    · show st.active _ = _
      rw [ha]
      simp only [List.length_nil, Nat.add_zero]
    · rfl
  | cons t ts ih =>
    intro st e ha hbnds hblocks hrok hcode hcap
    obtain ⟨hr1, hrtail⟩ := hrok
    rcases hcv : consumeVerifyBucket env.cfg st.rl (normalizeIdentifier c raw) ip c p t
      with ⟨r1, m1⟩
    rw [hcv] at hr1
    rcases r1 with a | u
    · simp at hr1
    · cases u
      have hbnd := hbnds t (List.mem_cons_self t ts)
      have hb := hblocks t (List.mem_cons_self t ts)
      have hstep := verifyOtp_fail_increments env st c raw code p ip jti tk t e m1 hcv hb ha
        hbnd.2 hbnd.1 (by simp only [List.length_cons] at hcap; omega) hcode
      have hcap2 : e.val.attempts + 1 + ts.length ≤ e.val.maxAttempts := by
        simp only [List.length_cons] at hcap
        omega
      have hrtail2 : verifiesRateOk env c raw code p ip jti tk
          { st with
              rl := m1
              active := st.active.set (keyActive p c (normalizeIdentifier c raw))
                ⟨{ e.val with attempts := e.val.attempts + 1 }, e.expireAt⟩ } ts := by
        rw [hstep] at hrtail
        exact hrtail
      have IH := ih
        { st with
            rl := m1
            active := st.active.set (keyActive p c (normalizeIdentifier c raw))
              ⟨{ e.val with attempts := e.val.attempts + 1 }, e.expireAt⟩ }
        ⟨{ e.val with attempts := e.val.attempts + 1 }, e.expireAt⟩
        (SMap.get_set_self _ _ _)
        (fun t2 ht2 => hbnds t2 (List.mem_cons_of_mem t ht2))
        (fun t2 ht2 => hblocks t2 (List.mem_cons_of_mem t ht2))
        hrtail2
        hcode
        hcap2
      have hrunstep : verifyRun env c raw code p ip jti tk st (t :: ts) =
          verifyRun env c raw code p ip jti tk
            { st with
                rl := m1
                active := st.active.set (keyActive p c (normalizeIdentifier c raw))
                  ⟨{ e.val with attempts := e.val.attempts + 1 }, e.expireAt⟩ } ts := by
        show verifyRun env c raw code p ip jti tk
          (verifyOtp env st c raw code p ip jti tk t).2 ts = _
        rw [hstep]
      rw [hrunstep]
      constructor
      · simp only [List.length_cons]
        have harith : e.val.attempts + (ts.length + 1) = e.val.attempts + 1 + ts.length := by
          omega
        rw [harith]
        exact IH.1
      · exact IH.2

/-- C3 counterexample: with the default configuration (`OTP_VERIFY_MAX = 5`
drives both `maxAttempts` and the per-identifier verify bucket, with the same
window), a fresh code followed by exactly `maxAttempts + 1 = 6` failed
`verifyOtp` calls does NOT produce a Block Record: the first five fail
`BadRequest`, and the sixth fails with `TooManyRequests` — the verify bucket
trips before the lockout logic runs — leaving the tuple unblocked. -/
theorem c3_counterexample :
    (let s0 := (requestOtp idOtpEnv OtpState.empty .sms "id1" .login none "111111" 1000).2
     let v := fun st => verifyOtp idOtpEnv st .sms "id1" "000000" .login none "j" "t" 1000
     (v s0).1 = .error (.badRequest invalidCodeMsg)
       ∧ (v (v s0).2).1 = .error (.badRequest invalidCodeMsg)
       ∧ (v (v (v s0).2).2).1 = .error (.badRequest invalidCodeMsg)
       ∧ (v (v (v (v s0).2).2).2).1 = .error (.badRequest invalidCodeMsg)
       ∧ (v (v (v (v (v s0).2).2).2).2).1 = .error (.badRequest invalidCodeMsg)
       ∧ (v (v (v (v (v (v s0).2).2).2).2).2).1 = .error (.tooMany verMaxIdMsg)
       ∧ getLive (v (v (v (v (v (v s0).2).2).2).2).2).2.blockK
           (keyBlock .login .sms "id1") 1000 = none) := by
  exact ⟨rfl, rfl, rfl, rfl, rfl, rfl, rfl⟩

/-- C3 (amended): provided every call passes its rate-limit buckets —
(A) wrong-code `verifyOtp` calls whose running total stays within
`maxAttempts` each fail `BadRequest`, advance the attempt counter one-for-one
and create no Block Record; (B) the next failed call — the
`maxAttempts + 1`-th — atomically deletes the OTP record, creates the Block
Record with the configured block-window TTL, and fails Forbidden;
(C) while the Block Record is live, both `requestOtp` and `verifyOtp` for the
tuple fail Forbidden; (D) once the block TTL has elapsed the tuple stops
failing Forbidden — `requestOtp` issues a fresh code and `verifyOtp` reports
`BadRequest` for the (deleted) record. -/
theorem c3_lockout_monotonic :
    (∀ (env : OtpEnv) (c : OtpChannel) (raw code : String) (p : OtpPurpose)
        (ip : Option String) (jti tk : String) (ts : List Nat) (st : OtpState)
        (e : Expiring OtpRecord),
        st.active (keyActive p c (normalizeIdentifier c raw)) = some e →
        (∀ t ∈ ts, t < e.val.exp ∧ t < e.expireAt) →
        (∀ t ∈ ts, getLive st.blockK (keyBlock p c (normalizeIdentifier c raw)) t = none) →
        verifiesRateOk env c raw code p ip jti tk st ts →
        env.hashFn code ≠ e.val.codeHash →
        e.val.attempts + ts.length ≤ e.val.maxAttempts →
        (verifyRun env c raw code p ip jti tk st ts).active
            (keyActive p c (normalizeIdentifier c raw)) =
            some ⟨{ e.val with attempts := e.val.attempts + ts.length }, e.expireAt⟩
          ∧ (verifyRun env c raw code p ip jti tk st ts).blockK = st.blockK)
      ∧ (∀ (env : OtpEnv) (st : OtpState) (c : OtpChannel) (raw code : String)
          (p : OtpPurpose) (ip : Option String) (jti tk : String) (now : Nat)
          (e : Expiring OtpRecord) (m1 : SMap (Expiring Nat)),
          consumeVerifyBucket env.cfg st.rl (normalizeIdentifier c raw) ip c p now =
            (.ok (), m1) →
          getLive st.blockK (keyBlock p c (normalizeIdentifier c raw)) now = none →
          st.active (keyActive p c (normalizeIdentifier c raw)) = some e →
          now < e.expireAt →
          now < e.val.exp →
          e.val.maxAttempts < e.val.attempts + 1 →
          (verifyOtp env st c raw code p ip jti tk now).1 = .error (.forbidden blockedMsg)
            ∧ (verifyOtp env st c raw code p ip jti tk now).2.blockK
                (keyBlock p c (normalizeIdentifier c raw)) =
                some ⟨"1", now + env.cfg.blockWindowSeconds⟩
            ∧ (verifyOtp env st c raw code p ip jti tk now).2.active
                (keyActive p c (normalizeIdentifier c raw)) = none)
      ∧ (∀ (env : OtpEnv) (st : OtpState) (c : OtpChannel) (raw code : String)
          (p : OtpPurpose) (ip : Option String) (jti tk : String) (now : Nat)
          (v : String) (mr mv : SMap (Expiring Nat)),
          getLive st.blockK (keyBlock p c (normalizeIdentifier c raw)) now = some v →
          (consumeRequestBucket env.cfg st.rl (normalizeIdentifier c raw) ip c p now =
              (.ok (), mr) →
            (requestOtp env st c raw p ip code now).1 = .error (.forbidden blockedMsg))
          ∧ (consumeVerifyBucket env.cfg st.rl (normalizeIdentifier c raw) ip c p now =
              (.ok (), mv) →
            (verifyOtp env st c raw code p ip jti tk now).1 =
              .error (.forbidden blockedMsg)))
      ∧ (∀ (env : OtpEnv) (st : OtpState) (c : OtpChannel) (raw code : String)
          (p : OtpPurpose) (ip : Option String) (jti tk : String) (now : Nat)
          (mr mv : SMap (Expiring Nat)),
          getLive st.blockK (keyBlock p c (normalizeIdentifier c raw)) now = none →
          getLive st.active (keyActive p c (normalizeIdentifier c raw)) now = none →
          (consumeRequestBucket env.cfg st.rl (normalizeIdentifier c raw) ip c p now =
              (.ok (), mr) →
            (requestOtp env st c raw p ip code now).1 =
              .ok ⟨false, env.cfg.otpTtl, env.cfg.resendCooldown⟩)
          ∧ (consumeVerifyBucket env.cfg st.rl (normalizeIdentifier c raw) ip c p now =
              (.ok (), mv) →
            (verifyOtp env st c raw code p ip jti tk now).1 =
              .error (.badRequest invalidCodeMsg))) := by
  refine ⟨?_, ?_, ?_, ?_⟩
  · intro env c raw code p ip jti tk ts st e ha hbnds hblocks hrok hcode hcap
    exact verifyRun_below_cap env c raw code p ip jti tk ts st e ha hbnds hblocks hrok
      hcode hcap
  · intro env st c raw code p ip jti tk now e m1 hcv hblock hact hlive hexp hatt
    have h := verifyOtp_overflow_blocks env st c raw code p ip jti tk now e m1 hcv hblock
      hact hlive hexp hatt
    rw [h]
    refine ⟨rfl, ?_, ?_⟩
    · exact SMap.get_set_self _ _ _
    · exact SMap.get_del_self _ _
  · intro env st c raw code p ip jti tk now v mr mv hb
    constructor
    · intro hcv
      unfold requestOtp
      try dsimp only
      rw [hcv]
      try dsimp only
      rw [hb]
      rw [if_pos (show ((some v : Option String)).isSome = true by simp)]
    · intro hcv
      unfold verifyOtp
      try dsimp only
      rw [hcv]
      try dsimp only
      rw [hb]
      rw [if_pos (show ((some v : Option String)).isSome = true by simp)]
  · intro env st c raw code p ip jti tk now mr mv hb hact
    constructor
    · intro hcv
      unfold requestOtp
      try dsimp only
      rw [hcv]
      try dsimp only
      rw [hb]
      rw [if_neg (show ¬ ((none : Option String).isSome = true) by simp)]
      rw [hact]
    · intro hcv
      unfold verifyOtp
      try dsimp only
      rw [hcv]
      try dsimp only
      rw [hb]
      rw [if_neg (show ¬ ((none : Option String).isSome = true) by simp)]
      unfold getLive at hact
      rcases ha2 : st.active (keyActive p c (normalizeIdentifier c raw)) with _ | e2
      · rfl
      · rw [ha2] at hact
        try dsimp only
        have hnl : ¬ now < e2.expireAt := by
          intro h
          try dsimp only at hact
          rw [if_pos h] at hact
          simp at hact
        rw [if_neg hnl]

/-- Witness for C3 at a concrete trace: record `c3Rec` (attempts 0, cap 5),
five wrong-code calls at t = 0..4 (each passing the verify bucket), the sixth
at t = 121 in a fresh rate window — Forbidden, Block Record with TTL 900,
record gone; plus blocked/unblocked `requestOtp` behavior. -/
theorem c3_witness :
    (let stN := verifyRun idOtpEnv .sms "id1" "000000" .login none "j" "t" c3State
       [0, 1, 2, 3, 4]
     stN.active (keyActive .login .sms "id1") =
         some ⟨⟨"111111", 5, 5, 300, 120, 1, "", .sms, .login⟩, 300⟩
       ∧ stN.blockK = c3State.blockK
       ∧ (verifyOtp idOtpEnv stN .sms "id1" "000000" .login none "j" "t" 121).1 =
           .error (.forbidden blockedMsg)
       ∧ (verifyOtp idOtpEnv stN .sms "id1" "000000" .login none "j" "t" 121).2.blockK
           (keyBlock .login .sms "id1") = some ⟨"1", 1021⟩
       ∧ (verifyOtp idOtpEnv stN .sms "id1" "000000" .login none "j" "t" 121).2.active
           (keyActive .login .sms "id1") = none
       ∧ (requestOtp idOtpEnv c8BlockState .sms "id1" .login none "5" 1000).1 =
           .error (.forbidden blockedMsg)
       ∧ (requestOtp idOtpEnv OtpState.empty .sms "id1" .login none "5" 1000).1 =
           .ok ⟨false, 300, 120⟩) := by
  have hA := c3_lockout_monotonic.1 idOtpEnv .sms "id1" "000000" .login none "j" "t"
    [0, 1, 2, 3, 4] c3State ⟨c3Rec, 300⟩ rfl (by decide) (fun t ht => rfl)
    ⟨rfl, rfl, rfl, rfl, rfl, trivial⟩ (by decide) (by decide)
  have hB := c3_lockout_monotonic.2.1 idOtpEnv
    (verifyRun idOtpEnv .sms "id1" "000000" .login none "j" "t" c3State [0, 1, 2, 3, 4])
    .sms "id1" "000000" .login none "j" "t" 121
    ⟨⟨"111111", 5, 5, 300, 120, 1, "", .sms, .login⟩, 300⟩
    (consumeVerifyBucket idOtpEnv.cfg
      (verifyRun idOtpEnv .sms "id1" "000000" .login none "j" "t" c3State
        [0, 1, 2, 3, 4]).rl "id1" none .sms .login 121).2
    rfl rfl rfl (by decide) (by decide) (by decide)
  have hC := (c3_lockout_monotonic.2.2.1 idOtpEnv c8BlockState .sms "id1" "5" .login none
    "j" "t" 1000 "1"
    (consumeRequestBucket idOtpEnv.cfg c8BlockState.rl "id1" none .sms .login 1000).2
    (consumeVerifyBucket idOtpEnv.cfg c8BlockState.rl "id1" none .sms .login 1000).2
    rfl).1 rfl
  have hD := (c3_lockout_monotonic.2.2.2 idOtpEnv OtpState.empty .sms "id1" "5" .login none
    "j" "t" 1000
    (consumeRequestBucket idOtpEnv.cfg OtpState.empty.rl "id1" none .sms .login 1000).2
    (consumeVerifyBucket idOtpEnv.cfg OtpState.empty.rl "id1" none .sms .login 1000).2
    rfl rfl).1 rfl
  exact ⟨hA.1, hA.2, hB.1, hB.2.1, hB.2.2, hC, hD⟩

/-! ## C1 and C2: refresh rotation -/

/-- A successful rotation, fully evaluated: under a valid unexpired
non-blacklisted token whose live allow-list entry matches (null sessionId, or
one equal to the token sid), `refresh` consumes the old entry, blacklists the
old jti, unlinks it (when a session was stored), and issues a new pair whose
allow-list entry carries the resolved sessionId and is linked. -/
theorem refreshSvc_success (env : RefreshEnv) (st : RefreshState) (p : RefreshTokenPayload)
    (roles : List String) (newJti : String) (now : Nat) (storedSid : Option String)
    (ex : Nat)
    (htyp : p.typ = "refresh") (hjti : p.jti ≠ "") (hsid : p.sid ≠ "") (hsub : p.sub ≠ "")
    (hexp : ¬ p.exp + clockTolerance ≤ now)
    (hbl : isRefreshBlacklisted st p.jti now = false)
    (hallow : st.allow p.jti = some ⟨.recordJson p.sub storedSid, ex⟩)
    (hlive : now < ex)
    (hmatch : storedSid = none ∨ storedSid = some p.sid)
    (husers : env.users p.sub = some roles)
    (httl : 0 < env.refreshTtlSeconds) :
    refreshSvc env st (.signed p) newJti now =
      (.ok ⟨⟨p.sub, roles.eraseDups, "access", now + env.accessTtlSeconds⟩,
            .signed ⟨p.sub, storedSid.getD p.sid, newJti, "refresh",
              now + env.refreshTtlSeconds⟩⟩,
       { st with
           allow := (st.allow.del p.jti).set newJti
             ⟨.recordJson p.sub (some (storedSid.getD p.sid)),
              now + max env.refreshTtlSeconds 60⟩
           rbl := st.rbl.set p.jti ⟨"1", now + env.refreshTtlSeconds⟩
           links := (p.sub, storedSid.getD p.sid, newJti) ::
             (match storedSid with
              | some s => st.links.filter (fun t => t ≠ (p.sub, s, p.jti))
              | none => st.links) }) := by
  unfold refreshSvc verifyRefreshTokenSvc tokenVerifyRefresh safeVerifyRefresh
  try dsimp only
  rw [if_neg (show ¬ (false = false ∧ p.exp + clockTolerance ≤ now) from fun h => hexp h.2)]
  rw [if_neg (show ¬ (p.typ ≠ "" ∧ p.typ ≠ "refresh") from fun h => h.2 htyp)]
  try dsimp only
  rw [if_neg (show ¬ (p.typ ≠ "refresh" ∨ p.jti = "" ∨ p.sid = "") from by
    simp [htyp, hjti, hsid])]
  rw [if_neg (show ¬ (false = false ∧ isRefreshBlacklisted st p.jti now = true) from by
    simp [hbl])]
  try dsimp only
  rw [if_neg (show ¬ (p.sub = "" ∨ p.jti = "") from by simp [hsub, hjti])]
  unfold atomicGetDel
  simp only [hallow]
  rw [if_pos hlive]
  try dsimp only
  unfold parseAllowRecord
  try dsimp only
  rw [if_neg (show ¬ (p.sub = "") from hsub)]
  rw [if_neg (show ¬ (p.sub ≠ p.sub) from fun h => h rfl)]
  try dsimp only
  rcases hmatch with h | h
  · subst h
    try dsimp only
    rw [if_neg (show ¬ ((false : Bool) = true) by simp)]
    unfold safeBlacklist
    rw [if_neg hjti]
    rw [if_neg (show ¬ (env.refreshTtlSeconds = 0) from by omega)]
    try dsimp only
    rw [husers]
    try dsimp only
    unfold buildPair linkRefreshJti
    try dsimp only
    rw [if_pos (show truthyOpt (some p.sid) = true from by simp [truthyOpt, hsid])]
    rfl
  · subst h
    try dsimp only
    rw [if_neg (show ¬ ((p.sid != "" && p.sid != p.sid) = true) by simp)]
    unfold safeBlacklist
    rw [if_neg hjti]
    rw [if_neg (show ¬ (env.refreshTtlSeconds = 0) from by omega)]
    try dsimp only
    rw [if_pos (show (p.sid != "") = true from by simp [hsid])]
    unfold unlinkRefreshJti
    try dsimp only
    rw [husers]
    try dsimp only
    unfold buildPair linkRefreshJti
    try dsimp only
    rw [if_pos (show truthyOpt (some p.sid) = true from by simp [truthyOpt, hsid])]
    rfl

/-- Once the allow-list entry for a token's jti is gone, every `refresh` call
with that token fails with an `UnauthorizedException` — whatever the time and
whatever fresh jti the call would have used. -/
theorem refreshSvc_consumed (env : RefreshEnv) (st : RefreshState)
    (p : RefreshTokenPayload) (newJti : String) (now : Nat)
    (hgone : st.allow p.jti = none) :
    isUnauthorizedRes (refreshSvc env st (.signed p) newJti now).1 = true := by
  unfold refreshSvc verifyRefreshTokenSvc tokenVerifyRefresh safeVerifyRefresh
  try dsimp only
  by_cases h1 : (false = false ∧ p.exp + clockTolerance ≤ now)
  · rw [if_pos h1]
    rfl
  · rw [if_neg h1]
    by_cases h2 : (p.typ ≠ "" ∧ p.typ ≠ "refresh")
    · rw [if_pos h2]
      rfl
    · rw [if_neg h2]
      try dsimp only
      by_cases h3 : (p.typ ≠ "refresh" ∨ p.jti = "" ∨ p.sid = "")
      · rw [if_pos h3]
        rfl
      · rw [if_neg h3]
        by_cases h4 : (false = false ∧ isRefreshBlacklisted st p.jti now = true)
        · rw [if_pos h4]
          rfl
        · rw [if_neg h4]
          try dsimp only
          by_cases h5 : (p.sub = "" ∨ p.jti = "")
          · rw [if_pos h5]
            rfl
          · rw [if_neg h5]
            unfold atomicGetDel
            simp only [hgone]
            rfl

/-- C1: for a successfully-issued refresh token (active user, fresh jti, no
prior blacklist entry, called within the refresh TTL), `refresh` with the
identical token succeeds exactly once: the issuance yields the signed token,
the first `refresh` consumes the allow-list entry and returns a new pair, and
the second `refresh` with the same token — at any later instant, with any
fresh jti — fails with an `UnauthorizedException`. -/
theorem c1_replay_rejected :
    ∀ (env : RefreshEnv) (st0 : RefreshState) (userId : String) (roles : List String)
      (sessOpt : Option String) (jti0 jti1 jti2 : String) (t0 t1 t2 : Nat),
      env.users userId = some roles →
      userId ≠ "" →
      jti0 ≠ "" →
      sessOpt ≠ some "" →
      jti1 ≠ jti0 →
      isRefreshBlacklisted (issueTokensForUserId env st0 userId sessOpt jti0 t0).2
        jti0 t1 = false →
      t0 ≤ t1 →
      t1 < t0 + env.refreshTtlSeconds →
      (let tok : Token := .signed ⟨userId, sessOpt.getD jti0, jti0, "refresh",
         t0 + env.refreshTtlSeconds⟩
       let st1 := (issueTokensForUserId env st0 userId sessOpt jti0 t0).2
       (issueTokensForUserId env st0 userId sessOpt jti0 t0).1 =
           .ok ⟨⟨userId, roles.eraseDups, "access", t0 + env.accessTtlSeconds⟩, tok⟩
         ∧ isOkRes (refreshSvc env st1 tok jti1 t1).1 = true
         ∧ isUnauthorizedRes
             (refreshSvc env (refreshSvc env st1 tok jti1 t1).2 tok jti2 t2).1 = true) := by
  intro env st0 userId roles sessOpt jti0 jti1 jti2 t0 t1 t2 husers huid hj0 hsess hfresh
    hbl ht0 ht1
  have httl : 0 < env.refreshTtlSeconds := by omega
  have hsid : sessOpt.getD jti0 ≠ "" := by
    rcases sessOpt with _ | sv
    · exact hj0
    · intro he
      exact hsess (by rw [show sv = "" from he])
  have hallow1 : (issueTokensForUserId env st0 userId sessOpt jti0 t0).2.allow jti0 =
      some ⟨.recordJson userId sessOpt, t0 + max env.refreshTtlSeconds 60⟩ := by
    unfold issueTokensForUserId buildPair linkRefreshJti
    rw [husers]
    try dsimp only
    split
    · exact SMap.get_set_self _ _ _
    · exact SMap.get_set_self _ _ _
  have hmatch : sessOpt = none ∨ sessOpt = some (sessOpt.getD jti0) := by
    rcases sessOpt with _ | sv
    · exact Or.inl rfl
    · exact Or.inr rfl
  have hr1 := refreshSvc_success env
    (issueTokensForUserId env st0 userId sessOpt jti0 t0).2
    ⟨userId, sessOpt.getD jti0, jti0, "refresh", t0 + env.refreshTtlSeconds⟩
    roles jti1 t1 sessOpt (t0 + max env.refreshTtlSeconds 60)
    rfl hj0 hsid huid
    (by show ¬ (t0 + env.refreshTtlSeconds + clockTolerance ≤ t1); omega)
    hbl hallow1
    (Nat.lt_of_lt_of_le ht1 (Nat.add_le_add_left (Nat.le_max_left _ _) t0))
    hmatch husers httl
  refine ⟨?_, ?_, ?_⟩
  · unfold issueTokensForUserId buildPair
    rw [husers]
    try dsimp only
    try rfl
  · rw [hr1]
    rfl
  · rw [hr1]
    refine refreshSvc_consumed env _ _ jti2 t2 ?_
    try dsimp only
    rw [SMap.get_set]
    rw [if_neg (Ne.symm hfresh)]
    rw [SMap.get_del]
    rw [if_pos rfl]

/-- Witness for C1 at concrete inputs: user `"u"` with one role, session
`"s"`, issuance at `t0 = 0` with jti `"j0"`, first refresh at `t1 = 50`
(fresh jti `"j1"`), replayed refresh at `t2 = 130` (fresh jti `"j2"`). -/
theorem c1_witness :
    (issueTokensForUserId sampleRefreshEnv RefreshState.empty "u" (some "s") "j0" 0).1 =
        .ok ⟨⟨"u", ["user"], "access", 600⟩,
             .signed ⟨"u", "s", "j0", "refresh", 100⟩⟩
      ∧ isOkRes (refreshSvc sampleRefreshEnv
          (issueTokensForUserId sampleRefreshEnv RefreshState.empty "u" (some "s") "j0" 0).2
          (.signed ⟨"u", "s", "j0", "refresh", 100⟩) "j1" 50).1 = true
      ∧ isUnauthorizedRes
          (refreshSvc sampleRefreshEnv
            (refreshSvc sampleRefreshEnv
              (issueTokensForUserId sampleRefreshEnv RefreshState.empty "u" (some "s")
                "j0" 0).2
              (.signed ⟨"u", "s", "j0", "refresh", 100⟩) "j1" 50).2
            (.signed ⟨"u", "s", "j0", "refresh", 100⟩) "j2" 130).1 = true := by
  exact c1_replay_rejected sampleRefreshEnv RefreshState.empty "u" ["user"] (some "s")
    "j0" "j1" "j2" 0 50 130 rfl (by decide) (by decide) (by decide) (by decide) rfl
    (by decide) (by decide)

/-! ## C2 -/

/-- C2 counterexample: for a pair issued WITHOUT a session (allow-list
`sessionId = null`, the old jti linked to no session), a successful refresh
does not preserve the linkage state: the new allow-list entry stores
`sessionId = "j0"` (the token's sid, i.e. the old jti) instead of null, and
the new jti gets linked to that pseudo-session although the old jti was linked
to nothing — so the new jti is not "linked to the same session id the old
token was linked to". -/
theorem c2_counterexample :
    (let st1 := (issueTokensForUserId sampleRefreshEnv RefreshState.empty "u" none "j0" 0).2
     let tok : Token := .signed ⟨"u", "j0", "j0", "refresh", 100⟩
     st1.links = []
       ∧ st1.allow "j0" = some ⟨.recordJson "u" none, 100⟩
       ∧ isOkRes (refreshSvc sampleRefreshEnv st1 tok "j1" 50).1 = true
       ∧ (refreshSvc sampleRefreshEnv st1 tok "j1" 50).2.allow "j1" =
           some ⟨.recordJson "u" (some "j0"), 150⟩
       ∧ (refreshSvc sampleRefreshEnv st1 tok "j1" 50).2.links = [("u", "j0", "j1")]) := by
  exact ⟨rfl, rfl, rfl, rfl, rfl⟩

/-- C2 (amended): after every successful `refresh` of a token whose allow-list
entry carries a non-null, non-empty `sessionId` (equal to the token's sid, as
rotation enforces), the old jti is absent from the allow-list and present in
the blacklist (TTL = refresh TTL), and the new jti is present in the
allow-list bound to the same session id and linked to that session in the
session registry, while the old jti is unlinked from it.  (For entries with a
null sessionId the new entry instead stores the token's sid — see the
counterexample.) -/
theorem c2_rotation_relinks :
    ∀ (env : RefreshEnv) (st : RefreshState) (p : RefreshTokenPayload)
      (roles : List String) (newJti : String) (now ex : Nat),
      p.typ = "refresh" → p.jti ≠ "" → p.sid ≠ "" → p.sub ≠ "" →
      ¬ p.exp + clockTolerance ≤ now →
      isRefreshBlacklisted st p.jti now = false →
      st.allow p.jti = some ⟨.recordJson p.sub (some p.sid), ex⟩ →
      now < ex →
      env.users p.sub = some roles →
      0 < env.refreshTtlSeconds →
      newJti ≠ p.jti →
      isOkRes (refreshSvc env st (.signed p) newJti now).1 = true
        ∧ (refreshSvc env st (.signed p) newJti now).2.allow p.jti = none
        ∧ (refreshSvc env st (.signed p) newJti now).2.rbl p.jti =
            some ⟨"1", now + env.refreshTtlSeconds⟩
        ∧ (refreshSvc env st (.signed p) newJti now).2.allow newJti =
            some ⟨.recordJson p.sub (some p.sid), now + max env.refreshTtlSeconds 60⟩
        ∧ (p.sub, p.sid, newJti) ∈ (refreshSvc env st (.signed p) newJti now).2.links
        ∧ (p.sub, p.sid, p.jti) ∉ (refreshSvc env st (.signed p) newJti now).2.links := by
  intro env st p roles newJti now ex htyp hjti hsid hsub hexp hbl hallow hlive husers httl
    hnew
  have h := refreshSvc_success env st p roles newJti now (some p.sid) ex htyp hjti hsid hsub
    hexp hbl hallow hlive (Or.inr rfl) husers httl
  rw [h]
  refine ⟨rfl, ?_, ?_, ?_, ?_, ?_⟩
  · show (((st.allow.del p.jti).set newJti _) : SMap _) p.jti = none
    rw [SMap.get_set]
    rw [if_neg hnew.symm]
    rw [SMap.get_del]
    rw [if_pos rfl]
  · exact SMap.get_set_self _ _ _
  · exact SMap.get_set_self _ _ _
  · exact List.mem_cons_self _ _
  · intro hmem
    rcases List.mem_cons.mp hmem with heq | hmem2
    · have : p.jti = newJti := congrArg (fun t => t.2.2) heq
      exact hnew this.symm
    · have hf := (List.mem_filter.mp hmem2).2
      simp at hf

/-- Witness for C2 at concrete inputs: the session-linked store `c4State`
(allow `"j"` ↦ `{u, s}`, link `("u","s","j")`), refreshed at `now = 200` with
fresh jti `"j2"`. -/
theorem c2_witness :
    isOkRes (refreshSvc sampleRefreshEnv c4State
        (.signed ⟨"u", "s", "j", "refresh", 1000⟩) "j2" 200).1 = true
      ∧ (refreshSvc sampleRefreshEnv c4State
          (.signed ⟨"u", "s", "j", "refresh", 1000⟩) "j2" 200).2.allow "j" = none
      ∧ (refreshSvc sampleRefreshEnv c4State
          (.signed ⟨"u", "s", "j", "refresh", 1000⟩) "j2" 200).2.rbl "j" =
          some ⟨"1", 300⟩
      ∧ (refreshSvc sampleRefreshEnv c4State
          (.signed ⟨"u", "s", "j", "refresh", 1000⟩) "j2" 200).2.allow "j2" =
          some ⟨.recordJson "u" (some "s"), 300⟩
      ∧ ("u", "s", "j2") ∈ (refreshSvc sampleRefreshEnv c4State
          (.signed ⟨"u", "s", "j", "refresh", 1000⟩) "j2" 200).2.links
      ∧ ("u", "s", "j") ∉ (refreshSvc sampleRefreshEnv c4State
          (.signed ⟨"u", "s", "j", "refresh", 1000⟩) "j2" 200).2.links := by
  exact c2_rotation_relinks sampleRefreshEnv c4State ⟨"u", "s", "j", "refresh", 1000⟩
    ["user"] "j2" 200 2000 rfl (by decide) (by decide) (by decide) (by decide) rfl rfl
    (by decide) rfl (by decide) (by decide)

end Negare
